import Mathlib

/-!
Verification of the Blog-API download/export subsystem.

This file is a shallow embedding, in Lean 4, of the parts of the repository
that the export subsystem claims are about:
  - `authentication/models.py` (`CustomUser`: rate-limit cooldown and counters),
  - `downloads/models.py` (`DownloadLog` ledger entries and their lifecycle),
  - `downloads/serializers.py` (`HistoricalDownloadSerializer` validation),
  - `downloads/utils.py` (`DataExporter` JSON/CSV/XML renderers,
    `create_download_response`),
  - `downloads/views.py` (the two export orchestrators and the usage reporter).

Modelling conventions:
  - wall-clock instants used for rate limiting and ledger timestamps are
    rationals (seconds); `timezone.now()` becomes an explicit `now` parameter;
  - post/calendar timestamps are a `DateTime` record compared lexicographically,
    which is how Python compares `datetime` values of the same timezone;
  - Django's lazily-evaluated querysets become eager `List` pipelines (same
    final contents), `.count()` becomes `List.length`;
  - database rows are values threaded through an explicit `AppState`;
  - `uuid4` request identifiers are modelled by a fresh counter
    (`nextRequestId`), which preserves exactly the property the views rely on:
    each created ledger entry has an identifier distinct from all others;
  - Python exceptions become `Except` values; a Python function that falls off
    its end returns `None`, modelled as `Option.none`.
-/

set_option linter.unusedVariables false

/-! ## Calendar datetimes (Python `datetime` / `date`) -/

/-- A calendar datetime (no timezone: the code always works in one zone). -/
structure DateTime where
  year : Nat
  month : Nat
  day : Nat
  hour : Nat
  minute : Nat
  second : Nat
deriving DecidableEq

/-- Chronological comparison of same-zone datetimes is lexicographic on the
calendar fields, exactly as in Python. -/
def DateTime.le (a b : DateTime) : Bool :=
  if a.year ≠ b.year then a.year < b.year
  else if a.month ≠ b.month then a.month < b.month
  else if a.day ≠ b.day then a.day < b.day
  else if a.hour ≠ b.hour then a.hour < b.hour
  else if a.minute ≠ b.minute then a.minute < b.minute
  else a.second ≤ b.second

/-- A calendar date, as parsed by the serializer's `DateField`s. -/
structure Date where
  year : Nat
  month : Nat
  day : Nat
deriving DecidableEq

/-- `date_from > date_to` comparison used by the serializer's `validate`. -/
def Date.lt (a b : Date) : Bool :=
  if a.year ≠ b.year then a.year < b.year
  else if a.month ≠ b.month then a.month < b.month
  else a.day < b.day

def padTwo (n : Nat) : String :=
  if n < 10 then "0" ++ toString n else toString n

def padFour (n : Nat) : String :=
  if n < 10 then "000" ++ toString n
  else if n < 100 then "00" ++ toString n
  else if n < 1000 then "0" ++ toString n
  else toString n

/-- Python `datetime.strftime('%Y-%m-%d %H:%M:%S')`. -/
def DateTime.strftimeYmdHms (d : DateTime) : String :=
  padFour d.year ++ "-" ++ padTwo d.month ++ "-" ++ padTwo d.day ++ " " ++
    padTwo d.hour ++ ":" ++ padTwo d.minute ++ ":" ++ padTwo d.second

/-- Python `datetime.strftime('%Y%m%d_%H%M%S')`, used for download filenames. -/
def DateTime.strftimeCompact (d : DateTime) : String :=
  padFour d.year ++ padTwo d.month ++ padTwo d.day ++ "_" ++
    padTwo d.hour ++ padTwo d.minute ++ padTwo d.second

/-- Python `datetime.isoformat()` (to seconds precision). -/
def DateTime.isoformat (d : DateTime) : String :=
  padFour d.year ++ "-" ++ padTwo d.month ++ "-" ++ padTwo d.day ++ "T" ++
    padTwo d.hour ++ ":" ++ padTwo d.minute ++ ":" ++ padTwo d.second

/-- Python `date.isoformat()`. -/
def Date.isoformat (d : Date) : String :=
  padFour d.year ++ "-" ++ padTwo d.month ++ "-" ++ padTwo d.day

/-! ## `authentication/models.py`: `CustomUser` -/

/-- Embeds `authentication.models.CustomUser` (the fields the export subsystem
reads or writes). `last_download` and instants handed to `can_download` are
rational wall-clock seconds. -/
structure CustomUser where
  id : Nat
  username : String
  email : String
  first_name : String
  last_name : String
  last_download : Option ℚ
  download_count : Nat
deriving DecidableEq

/-- `CustomUser.get_full_name`: `f"{first} {last}".strip()`. -/
def CustomUser.get_full_name (u : CustomUser) : String :=
  (u.first_name ++ " " ++ u.last_name).trim

/-- `CustomUser.can_download` at instant `now`:
`last_download` null → allowed; otherwise allowed iff strictly more than
3600 seconds have elapsed (`time_diff.total_seconds() > 3600`). -/
def CustomUser.can_download (u : CustomUser) (now : ℚ) : Bool :=
  match u.last_download with
  | none => true
  | some t => decide (now - t > 3600)

/-- `CustomUser.increment_download_count`: bumps the lifetime counter and
advances the cooldown timestamp to `timezone.now()` (here `now`). -/
def CustomUser.increment_download_count (u : CustomUser) (now : ℚ) : CustomUser :=
  { u with download_count := u.download_count + 1, last_download := some now }

/-! ## `downloads/models.py`: `DownloadLog` -/

/-- Embeds `downloads.models.DownloadLog`. `file_size_bytes` is kept as an
optional value so that the views' defensive `log.file_size_bytes or 0` has a
null case to guard (the model default is `0`, i.e. `some 0`). -/
structure DownloadLog where
  user_id : Nat
  download_type : String
  file_format : String
  ip_address : String
  user_agent : String
  request_id : Nat
  filters_applied : List (String × String)
  total_records : Nat
  file_size_bytes : Option Nat
  processing_time_seconds : ℚ
  is_successful : Bool
  error_message : String
  requested_at : ℚ
  completed_at : Option ℚ
deriving DecidableEq

/-- `DownloadLog.objects.create(...)`: a fresh pending ledger entry with the
model's field defaults (`is_successful=False`, `completed_at=None`, zero
counters). -/
def DownloadLog.create (user_id : Nat) (download_type file_format : String)
    (ip_address user_agent : String) (filters_applied : List (String × String))
    (request_id : Nat) (now : ℚ) : DownloadLog :=
  { user_id := user_id
    download_type := download_type
    file_format := file_format
    ip_address := ip_address
    user_agent := user_agent
    request_id := request_id
    filters_applied := filters_applied
    total_records := 0
    file_size_bytes := some 0
    processing_time_seconds := 0
    is_successful := false
    error_message := ""
    requested_at := now
    completed_at := none }

/-- `DownloadLog.mark_completed`: terminal success update. -/
def DownloadLog.mark_completed (log : DownloadLog) (total_records file_size : Nat)
    (processing_time now : ℚ) : DownloadLog :=
  { log with
    is_successful := true
    total_records := total_records
    file_size_bytes := some file_size
    processing_time_seconds := processing_time
    completed_at := some now }

/-- `DownloadLog.mark_failed`: terminal failure update. -/
def DownloadLog.mark_failed (log : DownloadLog) (error_message : String)
    (now : ℚ) : DownloadLog :=
  { log with
    is_successful := false
    error_message := error_message
    completed_at := some now }

/-! ## Ledger operations

The views touch the `DownloadLog` table through exactly three primitives:
`objects.create`, `mark_completed` (a row update keyed by the entry's unique
`request_id`) and `mark_failed`.  We record which primitives a view execution
performs as a trace of `LedgerOp`s, and interpret the trace over the table. -/

inductive LedgerOp where
  | create (log : DownloadLog)
  | complete (request_id total_records file_size : Nat) (processing_time now : ℚ)
  | fail (request_id : Nat) (error_message : String) (now : ℚ)
deriving DecidableEq

/-- Terminal ledger operations are the two `mark_*` updates. -/
def LedgerOp.isTerminal : LedgerOp → Bool
  | .create _ => false
  | .complete _ _ _ _ _ => true
  | .fail _ _ _ => true

/-- The `request_id` a terminal operation updates. -/
def LedgerOp.target : LedgerOp → Option Nat
  | .create _ => none
  | .complete rid _ _ _ _ => some rid
  | .fail rid _ _ => some rid

/-- One ledger primitive applied to the table: `create` appends a row,
`mark_completed`/`mark_failed` update the row with the matching unique id. -/
def applyOp (logs : List DownloadLog) : LedgerOp → List DownloadLog
  | .create l => logs ++ [l]
  | .complete rid tr fs pt n =>
      logs.map fun l => if l.request_id = rid then l.mark_completed tr fs pt n else l
  | .fail rid msg n =>
      logs.map fun l => if l.request_id = rid then l.mark_failed msg n else l

def applyOps (logs : List DownloadLog) (ops : List LedgerOp) : List DownloadLog :=
  ops.foldl applyOp logs

/-! ## `blog/models.py`: the records the exporter consumes (read-only) -/

/-- Embeds `blog.models.Category` (the fields the download subsystem reads). -/
structure Category where
  name : String
  slug : String
deriving DecidableEq

/-- Embeds `blog.models.Tag` (the fields the download subsystem reads). -/
structure Tag where
  name : String
  slug : String
deriving DecidableEq

/-- Embeds `blog.models.BlogPost` (the fields the download subsystem reads).
The author is carried as the owning `CustomUser` row, matching the
`select_related('author')` joined access in the views. -/
structure BlogPost where
  id : Nat
  title : String
  content : String
  excerpt : String
  author : CustomUser
  category : Option Category
  tags : List Tag
  is_public : Bool
  status : String
  view_count : Nat
  like_count : Nat
  created_at : DateTime
  updated_at : DateTime
  publication_date : Option DateTime
deriving DecidableEq

/-! ## `downloads/serializers.py`: `HistoricalDownloadSerializer` -/

/-- The request payload of the historical download endpoint, after field
parsing: absent optional fields are `none`. -/
structure HistoricalRequestData where
  date_from : Option Date
  date_to : Option Date
  format : Option String
  include_private : Option Bool
  category : Option String
deriving DecidableEq

namespace HistoricalDownloadSerializer

/-- The serializer's field and object-level errors: `format` must be one of the
`ChoiceField` choices, `category` (a `CharField`) may not be blank when given,
and `validate` rejects `date_from > date_to` when both bounds are present. -/
def errors (d : HistoricalRequestData) : List String :=
  (match d.format with
   | none => []
   | some f => if ["json", "csv", "xml"].contains f then [] else ["format: not a valid choice"]) ++
  (match d.category with
   | none => []
   | some c => if c.isEmpty then ["category: may not be blank"] else []) ++
  (match d.date_from, d.date_to with
   | some a, some b => if Date.lt b a then ["date_from cannot be after date_to"] else []
   | _, _ => [])

/-- `serializer.is_valid()`. -/
def is_valid (d : HistoricalRequestData) : Bool :=
  (errors d).isEmpty

/-- The serializer's validated payload after filling the declared defaults
(`format='json'`, `include_private=False`). -/
structure Validated where
  date_from : Option Date
  date_to : Option Date
  format : String
  include_private : Bool
  category : Option String
deriving DecidableEq

/-- `serializer.validated_data`. -/
def validated (d : HistoricalRequestData) : Validated :=
  { date_from := d.date_from
    date_to := d.date_to
    format := d.format.getD "json"
    include_private := (d.include_private.getD false)
    category := d.category }

/-- `dict(request.data)`: the raw request snapshot stored as
`filters_applied` (opaque audit data, never re-read by the code). -/
def snapshot (d : HistoricalRequestData) : List (String × String) :=
  (match d.date_from with | none => [] | some a => [("date_from", a.isoformat)]) ++
  (match d.date_to with | none => [] | some b => [("date_to", b.isoformat)]) ++
  (match d.format with | none => [] | some f => [("format", f)]) ++
  (match d.include_private with | none => [] | some b => [("include_private", if b then "True" else "False")]) ++
  (match d.category with | none => [] | some c => [("category", c)])

end HistoricalDownloadSerializer

/-! ## `downloads/utils.py`: `DataExporter` and `create_download_response` -/

/-- Case-insensitive substring search over lowered character lists, the
semantics of Django's `name__icontains` lookup. -/
def charRunSearch (needle : List Char) : List Char → Bool
  | [] => needle.isEmpty
  | c :: t => needle.isPrefixOf (c :: t) || charRunSearch needle t

/-- `field__icontains=value`: `value` occurs case-insensitively in `field`. -/
def icontains (hay needle : String) : Bool :=
  charRunSearch (needle.data.map Char.toLower) (hay.data.map Char.toLower)

/-- JSON string escaping for the rendered payload. -/
def jsonEscapeChar (c : Char) : List Char :=
  if c = '"' then ['\\', '"']
  else if c = '\\' then ['\\', '\\']
  else if c = '\n' then ['\\', 'n']
  else if c = '\t' then ['\\', 't']
  else if c = '\r' then ['\\', 'r']
  else [c]

def jsonStr (s : String) : String :=
  "\"" ++ String.mk (s.data.foldr (fun c acc => jsonEscapeChar c ++ acc) []) ++ "\""

def jsonOptStr : Option String → String
  | none => "null"
  | some s => jsonStr s

def jsonBool (b : Bool) : String :=
  if b then "true" else "false"

/-- The nested `author` object of one exported JSON post. -/
structure AuthorJson where
  username : String
  email : String
  full_name : String
deriving DecidableEq

/-- The nested `category` object of one exported JSON post (`None` fields when
the post has no category). -/
structure CategoryJson where
  name : Option String
  slug : Option String
deriving DecidableEq

structure TagJson where
  name : String
  slug : String
deriving DecidableEq

/-- One element of the `posts` array built by `export_posts_to_json`. -/
structure PostJson where
  id : Nat
  title : String
  content : String
  excerpt : String
  author : AuthorJson
  category : CategoryJson
  tags : List TagJson
  is_public : Bool
  status : String
  view_count : Nat
  like_count : Nat
  created_at : String
  updated_at : String
  publication_date : Option String
deriving DecidableEq

/-- The top-level object passed to `json.dumps` by `export_posts_to_json`. -/
structure JsonExportDoc where
  export_date : String
  total_posts : Nat
  posts : List PostJson
deriving DecidableEq

def AuthorJson.dumps (a : AuthorJson) : String :=
  "\x7b\"username\": " ++ jsonStr a.username ++ ", \"email\": " ++ jsonStr a.email ++
    ", \"full_name\": " ++ jsonStr a.full_name ++ "\x7d"

def CategoryJson.dumps (c : CategoryJson) : String :=
  "\x7b\"name\": " ++ jsonOptStr c.name ++ ", \"slug\": " ++ jsonOptStr c.slug ++ "\x7d"

def TagJson.dumps (t : TagJson) : String :=
  "\x7b\"name\": " ++ jsonStr t.name ++ ", \"slug\": " ++ jsonStr t.slug ++ "\x7d"

def PostJson.dumps (p : PostJson) : String :=
  "\x7b\"id\": " ++ toString p.id ++
    ", \"title\": " ++ jsonStr p.title ++
    ", \"content\": " ++ jsonStr p.content ++
    ", \"excerpt\": " ++ jsonStr p.excerpt ++
    ", \"author\": " ++ p.author.dumps ++
    ", \"category\": " ++ p.category.dumps ++
    ", \"tags\": [" ++ String.intercalate ", " (p.tags.map TagJson.dumps) ++ "]" ++
    ", \"is_public\": " ++ jsonBool p.is_public ++
    ", \"status\": " ++ jsonStr p.status ++
    ", \"view_count\": " ++ toString p.view_count ++
    ", \"like_count\": " ++ toString p.like_count ++
    ", \"created_at\": " ++ jsonStr p.created_at ++
    ", \"updated_at\": " ++ jsonStr p.updated_at ++
    ", \"publication_date\": " ++ jsonOptStr p.publication_date ++ "\x7d"

/-- `json.dumps` of the export document (whitespace layout abstracted: the
source passes `indent=2`; no claim depends on the byte layout). -/
def JsonExportDoc.dumps (d : JsonExportDoc) : String :=
  "\x7b\"export_date\": " ++ jsonStr d.export_date ++
    ", \"total_posts\": " ++ toString d.total_posts ++
    ", \"posts\": [" ++ String.intercalate ", " (d.posts.map PostJson.dumps) ++ "]\x7d"

namespace DataExporter

/-- `DataExporter.export_posts_to_json`, up to the final `json.dumps`: the
document built from the queryset, with `export_date` the render-time
`timezone.now().isoformat()` (passed as `nowIso`). -/
def export_posts_to_json_doc (queryset : List BlogPost) (nowIso : String) : JsonExportDoc :=
  let posts_data := queryset.map fun post =>
    { id := post.id
      title := post.title
      content := post.content
      excerpt := post.excerpt
      author :=
        { username := post.author.username
          email := post.author.email
          full_name := post.author.get_full_name }
      category :=
        { name := post.category.map Category.name
          slug := post.category.map Category.slug }
      tags := post.tags.map fun tag => { name := tag.name, slug := tag.slug }
      is_public := post.is_public
      status := post.status
      view_count := post.view_count
      like_count := post.like_count
      created_at := post.created_at.isoformat
      updated_at := post.updated_at.isoformat
      publication_date := post.publication_date.map DateTime.isoformat : PostJson }
  { export_date := nowIso
    total_posts := posts_data.length
    posts := posts_data }

/-- `DataExporter.export_posts_to_json`: the rendered JSON text. -/
def export_posts_to_json (queryset : List BlogPost) (nowIso : String) : String :=
  (export_posts_to_json_doc queryset nowIso).dumps

/-- The 15-column CSV header row written by `export_posts_to_csv`. -/
def csv_header : List String :=
  ["ID", "Title", "Content", "Excerpt", "Author Username", "Author Email",
   "Category", "Tags", "Is Public", "Status", "View Count", "Like Count",
   "Created At", "Updated At", "Publication Date"]

/-- One data row of `export_posts_to_csv` (`csv.writer` stringifies each cell;
Python `str(bool)` is `True`/`False`). -/
def csvPostRow (post : BlogPost) : List String :=
  [toString post.id,
   post.title,
   post.content,
   post.excerpt,
   post.author.username,
   post.author.email,
   (match post.category with | some c => c.name | none => ""),
   String.intercalate ", " (post.tags.map Tag.name),
   (if post.is_public then "True" else "False"),
   post.status,
   toString post.view_count,
   toString post.like_count,
   post.created_at.strftimeYmdHms,
   post.updated_at.strftimeYmdHms,
   (match post.publication_date with | some d => d.strftimeYmdHms | none => "")]

/-- The full sequence of `writer.writerow` calls made by
`export_posts_to_csv`: the header row, then one row per record. -/
def export_posts_to_csv_rows (queryset : List BlogPost) : List (List String) :=
  csv_header :: queryset.map csvPostRow

/-- `csv.writer` field quoting (QUOTE_MINIMAL): quote when the field holds the
delimiter, the quote char, or a line break; double embedded quotes. -/
def csvField (s : String) : String :=
  if s.data.contains ',' || s.data.contains '"' || s.data.contains '\n' || s.data.contains '\r' then
    "\"" ++ String.mk (s.data.foldr (fun c acc =>
      (if c = '"' then ['"', '"'] else [c]) ++ acc) []) ++ "\""
  else s

def csvRenderRow (row : List String) : String :=
  String.intercalate "," (row.map csvField) ++ "\r\n"

/-- `DataExporter.export_posts_to_csv`: the rendered CSV text. -/
def export_posts_to_csv (queryset : List BlogPost) : String :=
  String.join ((export_posts_to_csv_rows queryset).map csvRenderRow)

end DataExporter

/-! ### XML rendering (`xml.etree.ElementTree`) -/

/-- An `ElementTree` element: tag, attributes, optional text, children. -/
inductive XmlNode where
  | elem (tag : String) (attrs : List (String × String)) (text : Option String)
      (children : List XmlNode)

def XmlNode.tag : XmlNode → String
  | .elem t _ _ _ => t

def XmlNode.attrs : XmlNode → List (String × String)
  | .elem _ a _ _ => a

def XmlNode.children : XmlNode → List XmlNode
  | .elem _ _ _ c => c

def xmlEscape (s : String) : String :=
  String.mk (s.data.foldr (fun c acc =>
    (if c = '&' then "&amp;".data
     else if c = '<' then "&lt;".data
     else if c = '>' then "&gt;".data
     else [c]) ++ acc) [])

/-- `ET.tostring(..., encoding='unicode')` (self-closing-tag byte layout
abstracted; no claim depends on the byte text). -/
def XmlNode.render : XmlNode → String
  | .elem tag attrs text children =>
      "<" ++ tag ++
        String.join (attrs.map fun a => " " ++ a.1 ++ "=\"" ++ xmlEscape a.2 ++ "\"") ++ ">" ++
        (match text with | some t => xmlEscape t | none => "") ++
        String.join (children.attach.map fun c => XmlNode.render c.1) ++
      "</" ++ tag ++ ">"
decreasing_by
  have := List.sizeOf_lt_of_mem c.2
  simp only [XmlNode.elem.sizeOf_spec]
  omega

namespace DataExporter

/-- The `<post>` element built per record by `export_posts_to_xml`: basic
fields, `publication_date` only when present, nested `author`, `category` only
when present, and the `tags` element. -/
def xmlPostElement (post : BlogPost) : XmlNode :=
  .elem "post" [("id", toString post.id)] none
    ([ .elem "title" [] (some post.title) [],
       .elem "content" [] (some post.content) [],
       .elem "excerpt" [] (some post.excerpt) [],
       .elem "is_public" [] (some (if post.is_public then "True" else "False")) [],
       .elem "status" [] (some post.status) [],
       .elem "view_count" [] (some (toString post.view_count)) [],
       .elem "like_count" [] (some (toString post.like_count)) [],
       .elem "created_at" [] (some post.created_at.isoformat) [],
       .elem "updated_at" [] (some post.updated_at.isoformat) [] ] ++
     (match post.publication_date with
      | some d => [XmlNode.elem "publication_date" [] (some d.isoformat) []]
      | none => []) ++
     [ .elem "author" [] none
         [ .elem "username" [] (some post.author.username) [],
           .elem "email" [] (some post.author.email) [],
           .elem "full_name" [] (some post.author.get_full_name) [] ] ] ++
     (match post.category with
      | some c =>
          [XmlNode.elem "category" [] none
            [ .elem "name" [] (some c.name) [],
              .elem "slug" [] (some c.slug) [] ]]
      | none => []) ++
     [ .elem "tags" [] none
         (post.tags.map fun tag =>
           .elem "tag" [] none
             [ .elem "name" [] (some tag.name) [],
               .elem "slug" [] (some tag.slug) [] ]) ])

/-- `DataExporter.export_posts_to_xml`, up to the final `ET.tostring`: the
element tree, whose root carries `export_date` and
`total_posts = str(queryset.count())` as attributes. -/
def export_posts_to_xml_tree (queryset : List BlogPost) (nowIso : String) : XmlNode :=
  .elem "blog_export"
    [("export_date", nowIso), ("total_posts", toString queryset.length)] none
    [ .elem "posts" [] none (queryset.map xmlPostElement) ]

/-- `DataExporter.export_posts_to_xml`: the rendered XML text. -/
def export_posts_to_xml (queryset : List BlogPost) (nowIso : String) : String :=
  (export_posts_to_xml_tree queryset nowIso).render

end DataExporter

/-- A Django `HttpResponse` (default status 200). -/
structure HttpResponse where
  status : Nat := 200
  content : String
  content_type : String
  headers : List (String × String)
deriving DecidableEq

def HttpResponse.setHeader (r : HttpResponse) (k v : String) : HttpResponse :=
  { r with headers := r.headers ++ [(k, v)] }

/-- Embeds `downloads.utils.create_download_response`.  The source builds an
`HttpResponse` and sets the `Content-Disposition` and `Content-Length` headers,
but its body contains no `return` statement, so the Python function falls off
its end and returns `None` — hence `Option.none` here.  (The repository's own
view tests monkeypatch this function before asserting a 200 response.) -/
def create_download_response (content filename content_type : String) : Option HttpResponse :=
  let response : HttpResponse :=
    { content := content, content_type := content_type, headers := [] }
  let response := response.setHeader "Content-Disposition"
    ("attachment; filename=\"" ++ filename ++ "\"")
  let response := response.setHeader "Content-Length" (toString content.utf8ByteSize)
  none

/-! ## `downloads/views.py`: the orchestrators and the usage reporter -/

/-- The database rows and id source visible to one request: the requesting
user's row, the (read-only) post and category tables, and the ledger. -/
structure AppState where
  user : CustomUser
  posts : List BlogPost
  categories : List Category
  logs : List DownloadLog
  nextRequestId : Nat
deriving DecidableEq

/-- The outcome of `Category.objects.get(...)`: the unique match, or the
`DoesNotExist` / `MultipleObjectsReturned` exception. -/
inductive GetOutcome (α : Type) where
  | found (a : α)
  | doesNotExist
  | multipleObjectsReturned (num : Nat)
deriving DecidableEq

/-- `Category.objects.get(name__icontains=value)`: the unique match, the
`DoesNotExist` exception, or `MultipleObjectsReturned` carrying the number of
matching rows (which Django interpolates into the exception message). -/
def categoryGetIcontains (categories : List Category) (value : String) :
    GetOutcome Category :=
  match categories.filter (fun c => icontains c.name value) with
  | [] => .doesNotExist
  | [c] => .found c
  | c1 :: c2 :: rest => .multipleObjectsReturned (rest.length + 2)

/-- The message of Django's `MultipleObjectsReturned` for the category lookup:
`get() returned more than one Category -- it returned <num>!`. -/
def multipleCategoriesMessage (num : Nat) : String :=
  "get() returned more than one Category -- it returned " ++ toString num ++ "!"

/-- The message of the `AttributeError` raised inside the view's date branches:
`timezone.is_naive(value)` is `value.utcoffset() is None`, and the serializer's
`DateField` values are `datetime.date`s, which have no `utcoffset` method. -/
def dateAttributeErrorMessage : String :=
  "\x27datetime.date\x27 object has no attribute \x27utcoffset\x27"

/-- `order_by('-created_at')`: newest-created first (stable sort). -/
def createdDescLe (a b : BlogPost) : Bool :=
  DateTime.le b.created_at a.created_at

/-- The per-view ceiling `max_records = 10000` in
`HistoricalPostsDownloadView.post`. -/
def max_records : Nat := 10000

namespace HistoricalPostsDownloadView

/-- Embeds `HistoricalPostsDownloadView._build_queryset`: base visibility
predicate, the two date-bound branches, the category clause (zero matches
silently ignored; two or more matches raise `MultipleObjectsReturned`, which
this method does not catch), the `include_private` restriction, and the final
`-created_at` ordering.  The date branches are the source's hidden error path:
each one calls `timezone.is_naive(value)`, which evaluates
`value.utcoffset()`, and the serializer's `DateField` produces `datetime.date`
values, which have no `utcoffset` — so every date-bounded request raises
`AttributeError` here, before any date comparison and before the category
clause (the orchestrator's generic handler then turns it into a 500). -/
def build_queryset (user : CustomUser) (filters : HistoricalDownloadSerializer.Validated)
    (posts : List BlogPost) (categories : List Category) :
    Except String (List BlogPost) :=
  let queryset := posts.filter fun p =>
    (p.is_public && p.status == "published") || p.author.id == user.id
  match filters.date_from with
  | some _ => .error dateAttributeErrorMessage
  | none =>
  match filters.date_to with
  | some _ => .error dateAttributeErrorMessage
  | none =>
  match filters.category with
  | none =>
      let queryset :=
        if !filters.include_private then
          queryset.filter fun p =>
            p.is_public || (p.author.id == user.id && !p.is_public)
        else queryset
      .ok (queryset.mergeSort createdDescLe)
  | some value =>
      match categoryGetIcontains categories value with
      | .multipleObjectsReturned num => .error (multipleCategoriesMessage num)
      | outcome =>
          let queryset :=
            match outcome with
            | .found category => queryset.filter fun (p : BlogPost) => decide (p.category = some category)
            | _ => queryset
          let queryset :=
            if !filters.include_private then
              queryset.filter fun p =>
                p.is_public || (p.author.id == user.id && !p.is_public)
            else queryset
          .ok (queryset.mergeSort createdDescLe)

/-- Embeds `HistoricalPostsDownloadView._export_data`: renders the queryset in
the selected format and returns `(content, content_type, file_extension)`. -/
def export_data (queryset : List BlogPost) (file_format : String)
    (nowIso : String) : String × String × String :=
  if file_format = "csv" then
    (DataExporter.export_posts_to_csv queryset, "text/csv", "csv")
  else if file_format = "xml" then
    (DataExporter.export_posts_to_xml queryset nowIso, "application/xml", "xml")
  else
    (DataExporter.export_posts_to_json queryset nowIso, "application/json", "json")

end HistoricalPostsDownloadView

/-- The responses a download view can produce: DRF error responses (with their
HTTP status) or the value of `return create_download_response(...)`. -/
inductive ViewResponse where
  | validationError (errors : List String)
  | rateLimited (error : String) (retry_after : Nat)
  | tooLarge (error : String) (requested_count : Nat)
  | serverError (error : String) (request_id : Nat)
  | fileResponse (resp : Option HttpResponse)
deriving DecidableEq

/-- The HTTP status of a view response; `none` when the view returned `None`
instead of a response object (the transport layer then fails the request). -/
def ViewResponse.status : ViewResponse → Option Nat
  | .validationError _ => some 400
  | .rateLimited _ _ => some 429
  | .tooLarge _ _ => some 413
  | .serverError _ _ => some 500
  | .fileResponse (some r) => some r.status
  | .fileResponse none => none

/-- What one orchestrator run returns and does: the response, the updated
database rows, and the trace of ledger primitives it performed. -/
structure RunResult where
  response : ViewResponse
  state : AppState
  trace : List LedgerOp
deriving DecidableEq

namespace HistoricalPostsDownloadView

/-- Embeds `HistoricalPostsDownloadView.post`.  Explicit-time parameters:
`start_time`/`now` are the wall clock at entry and at completion (so
`processing_time = now - start_time`), `nowDT` is the calendar value of
`timezone.now()` used for the filename. -/
def post (st : AppState) (req : HistoricalRequestData) (ip user_agent : String)
    (start_time now : ℚ) (nowDT : DateTime) : RunResult :=
  if !HistoricalDownloadSerializer.is_valid req then
    { response := .validationError (HistoricalDownloadSerializer.errors req)
      state := st, trace := [] }
  else
    let validated_data := HistoricalDownloadSerializer.validated req
    if !st.user.can_download now then
      { response := .rateLimited
          "Download rate limit exceeded. Please wait before requesting another download." 3600
        state := st, trace := [] }
    else
      let download_log := DownloadLog.create st.user.id "historical_posts"
        validated_data.format ip user_agent (HistoricalDownloadSerializer.snapshot req)
        st.nextRequestId now
      match build_queryset st.user validated_data st.posts st.categories with
      | .error e =>
          let trace := [LedgerOp.create download_log,
                        LedgerOp.fail download_log.request_id e now]
          { response := .serverError "Download failed. Please try again later."
              download_log.request_id
            state := { st with logs := applyOps st.logs trace
                               nextRequestId := st.nextRequestId + 1 }
            trace := trace }
      | .ok queryset =>
          if queryset.length > max_records then
            let message := "Too many records requested. Maximum allowed: " ++ toString max_records
            let trace := [LedgerOp.create download_log,
                          LedgerOp.fail download_log.request_id message now]
            { response := .tooLarge message queryset.length
              state := { st with logs := applyOps st.logs trace
                                 nextRequestId := st.nextRequestId + 1 }
              trace := trace }
          else
            let file_format := validated_data.format
            let exported := export_data queryset file_format nowDT.isoformat
            let content := exported.1
            let content_type := exported.2.1
            let file_extension := exported.2.2
            let processing_time := now - start_time
            let file_size := content.utf8ByteSize
            let trace := [LedgerOp.create download_log,
                          LedgerOp.complete download_log.request_id queryset.length
                            file_size processing_time now]
            let user := st.user.increment_download_count now
            let filename := "historical_posts_" ++ nowDT.strftimeCompact ++ "." ++ file_extension
            { response := .fileResponse (create_download_response content filename content_type)
              state := { st with user := user
                                 logs := applyOps st.logs trace
                                 nextRequestId := st.nextRequestId + 1 }
              trace := trace }

end HistoricalPostsDownloadView

namespace UserPostsDownloadView

/-- Embeds `UserPostsDownloadView._export_data` (verbatim duplicate of the
historical view's method in the source). -/
def export_data (queryset : List BlogPost) (file_format : String)
    (nowIso : String) : String × String × String :=
  if file_format = "csv" then
    (DataExporter.export_posts_to_csv queryset, "text/csv", "csv")
  else if file_format = "xml" then
    (DataExporter.export_posts_to_xml queryset nowIso, "application/xml", "xml")
  else
    (DataExporter.export_posts_to_json queryset nowIso, "application/json", "json")

/-- Embeds `UserPostsDownloadView.post`: format check (no serializer), ledger
entry, author-owned queryset, export, `mark_completed`.  Note the source never
calls `increment_download_count` in this flow, and performs no
`can_download` rate check and no size guard. -/
def post (st : AppState) (format? : Option String) (ip user_agent : String)
    (start_time now : ℚ) (nowDT : DateTime) : RunResult :=
  let file_format := format?.getD "json"
  if !(["json", "csv", "xml"].contains file_format) then
    { response := .validationError ["Invalid format. Supported formats: json, csv, xml"]
      state := st, trace := [] }
  else
    let download_log := DownloadLog.create st.user.id "user_posts" file_format
      ip user_agent [("format", file_format)] st.nextRequestId now
    let queryset :=
      (st.posts.filter fun (p : BlogPost) => p.author.id == st.user.id).mergeSort createdDescLe
    let exported := export_data queryset file_format nowDT.isoformat
    let content := exported.1
    let content_type := exported.2.1
    let file_extension := exported.2.2
    let processing_time := now - start_time
    let file_size := content.utf8ByteSize
    let trace := [LedgerOp.create download_log,
                  LedgerOp.complete download_log.request_id queryset.length
                    file_size processing_time now]
    let filename := "my_posts_" ++ nowDT.strftimeCompact ++ "." ++ file_extension
    { response := .fileResponse (create_download_response content filename content_type)
      state := { st with logs := applyOps st.logs trace
                         nextRequestId := st.nextRequestId + 1 }
      trace := trace }

end UserPostsDownloadView

/-- The `usage_stats` object computed by `DownloadUsageView._get_usage_stats`. -/
structure UsageStats where
  total_downloads : Nat
  successful_downloads : Nat
  failed_downloads : Nat
  success_rate : ℚ
  total_data_downloaded_mb : ℚ
  recent_downloads_30_days : Nat
  last_download : Option ℚ
  can_download_now : Bool
deriving DecidableEq

/-- Round half to even (Python's `round`), at integer precision. -/
def roundHalfEven (x : ℚ) : ℤ :=
  let n := ⌊x⌋
  let frac := x - n
  if frac < 1 / 2 then n
  else if 1 / 2 < frac then n + 1
  else if n % 2 = 0 then n else n + 1

/-- Python `round(x, 2)` over exact rationals. -/
def pyRound2 (x : ℚ) : ℚ :=
  (roundHalfEven (x * 100) : ℚ) / 100

namespace DownloadUsageView

/-- Embeds `DownloadUsageView._get_usage_stats`: aggregates over the caller's
ledger rows; `success_rate` divides only when there are attempts;
`total_data_downloaded_mb` sums `file_size_bytes or 0` over successful rows. -/
def get_usage_stats (allLogs : List DownloadLog) (user : CustomUser) (now : ℚ) :
    UsageStats :=
  let logs := allLogs.filter fun l => l.user_id == user.id
  let total_downloads := logs.length
  let successful_downloads := (logs.filter fun l => l.is_successful).length
  let failed_downloads := (logs.filter fun l => !l.is_successful).length
  let total_bytes : Nat :=
    ((logs.filter fun l => l.is_successful).map fun l => l.file_size_bytes.getD 0).sum
  let total_data_mb : ℚ := (total_bytes : ℚ) / (1024 * 1024)
  let recent_downloads :=
    (logs.filter fun l => decide (now - 30 * 86400 ≤ l.requested_at)).length
  { total_downloads := total_downloads
    successful_downloads := successful_downloads
    failed_downloads := failed_downloads
    success_rate :=
      pyRound2 (if total_downloads > 0 then
        (successful_downloads : ℚ) / (total_downloads : ℚ) * 100 else 0)
    total_data_downloaded_mb := pyRound2 total_data_mb
    recent_downloads_30_days := recent_downloads
    last_download := user.last_download
    can_download_now := user.can_download now }

end DownloadUsageView

/-- One orchestrator invocation with all of its request-level inputs. -/
inductive OrchestratorCall where
  | historical (req : HistoricalRequestData) (ip user_agent : String)
      (start_time now : ℚ) (nowDT : DateTime)
  | userPosts (format? : Option String) (ip user_agent : String)
      (start_time now : ℚ) (nowDT : DateTime)

/-- Dispatch one orchestrator call. -/
def runCall (st : AppState) : OrchestratorCall → RunResult
  | .historical req ip ua t0 now nowDT =>
      HistoricalPostsDownloadView.post st req ip ua t0 now nowDT
  | .userPosts format? ip ua t0 now nowDT =>
      UserPostsDownloadView.post st format? ip ua t0 now nowDT

/-- Run a sequence of orchestrator calls, threading the database state. -/
def runCalls (st : AppState) (calls : List OrchestratorCall) : AppState :=
  calls.foldl (fun s c => (runCall s c).state) st

/-! ## Ledger lifecycle machinery shared by the invariant proofs -/

/-- Both invariant clauses the ledger maintains between requests: every stored
entry is finalized (`completed_at` non-null), and every stored entry's
identifier is older than the next fresh identifier. -/
def LedgerInv (st : AppState) : Prop :=
  (∀ l ∈ st.logs, l.completed_at ≠ none) ∧
  (∀ l ∈ st.logs, l.request_id < st.nextRequestId)

/-- The single-transition discipline of one orchestrator run over the ledger:
either it performs no ledger operation at all, or it creates exactly one
pending entry (fresh with respect to the pre-existing rows) and applies exactly
one terminal update, to that same entry. -/
def SingleTransitionTrace (priorLogs : List DownloadLog) : List LedgerOp → Prop
  | [] => True
  | [LedgerOp.create l, op] =>
      l.completed_at = none ∧ op.isTerminal = true ∧ op.target = some l.request_id ∧
      ∀ l' ∈ priorLogs, l'.request_id ≠ l.request_id
  | _ => False

lemma map_update_of_ne (logs : List DownloadLog) (rid : Nat)
    (f : DownloadLog → DownloadLog) (h : ∀ l ∈ logs, l.request_id ≠ rid) :
    (logs.map fun l => if l.request_id = rid then f l else l) = logs := by
  induction logs with
  | nil => rfl
  | cons a t ih =>
      simp only [List.map_cons, List.cons.injEq]
      exact ⟨by rw [if_neg (h a (List.mem_cons_self a t))],
        ih fun l hl => h l (List.mem_cons_of_mem a hl)⟩

lemma applyOps_create_complete (logs : List DownloadLog) (l : DownloadLog)
    (tr fs : Nat) (pt n : ℚ)
    (hfresh : ∀ l' ∈ logs, l'.request_id ≠ l.request_id) :
    applyOps logs [.create l, .complete l.request_id tr fs pt n]
      = logs ++ [l.mark_completed tr fs pt n] := by
  simp only [applyOps, List.foldl_cons, List.foldl_nil, applyOp, List.map_append,
    List.map_cons, List.map_nil, if_pos rfl, if_true,
    map_update_of_ne logs _ _ hfresh]

lemma applyOps_create_fail (logs : List DownloadLog) (l : DownloadLog)
    (msg : String) (n : ℚ)
    (hfresh : ∀ l' ∈ logs, l'.request_id ≠ l.request_id) :
    applyOps logs [.create l, .fail l.request_id msg n]
      = logs ++ [l.mark_failed msg n] := by
  simp only [applyOps, List.foldl_cons, List.foldl_nil, applyOp, List.map_append,
    List.map_cons, List.map_nil, if_pos rfl, if_true,
    map_update_of_ne logs _ _ hfresh]

/-! ## Claim C4 -/

/-- C4: `can_download` returns true when `last_download` is null; a successful
export stamps `last_download` (via `increment_download_count`); with
`last_download = t`, every instant `now` with `now - t ≤ 3600` seconds (up to
and including the 60-minute boundary) is refused, and every instant strictly
past the boundary is allowed. -/
theorem C4_can_download_sixty_minute_window (u : CustomUser) (t now : ℚ) :
    (u.last_download = none → u.can_download now = true) ∧
    ((u.increment_download_count t).last_download = some t) ∧
    (u.last_download = some t → now - t ≤ 3600 → u.can_download now = false) ∧
    (u.last_download = some t → 3600 < now - t → u.can_download now = true) := by
  refine ⟨fun h => by simp [CustomUser.can_download, h], rfl, fun h hle => ?_, fun h hgt => ?_⟩
  · simp only [CustomUser.can_download, h, decide_eq_false_iff_not, not_lt]
    exact hle
  · simp only [CustomUser.can_download, h, decide_eq_true_eq]
    exact hgt

/-- Witness for C4 at a concrete account: allowed with no prior download,
refused exactly at the 3600-second boundary after an export at time 0, allowed
one second later. -/
theorem C4_can_download_sixty_minute_window_witness :
    ({ id := 1, username := "u", email := "u@e", first_name := "", last_name := "",
       last_download := none, download_count := 0 : CustomUser }.can_download 5 = true) ∧
    ({ id := 1, username := "u", email := "u@e", first_name := "", last_name := "",
       last_download := some 0, download_count := 1 : CustomUser }.can_download 3600 = false) ∧
    ({ id := 1, username := "u", email := "u@e", first_name := "", last_name := "",
       last_download := some 0, download_count := 1 : CustomUser }.can_download 3601 = true) :=
  ⟨(C4_can_download_sixty_minute_window _ 0 5).1 rfl,
   (C4_can_download_sixty_minute_window _ 0 3600).2.2.1 rfl (by norm_num),
   (C4_can_download_sixty_minute_window _ 0 3601).2.2.2 rfl (by norm_num)⟩

/-! ## Claim C1 -/

/-- C1: the claim that a fully successful export attempt yields an HTTP 200
attachment response fails on this code: `create_download_response` builds the
response and its headers but has no `return` statement, so it returns `None`
for every input, and the success path of the historical view therefore returns
no HTTP response object at all (evaluated here on a concrete export attempt
that passes validation, rate check, query build, size guard and rendering). -/
theorem C1_success_path_returns_no_response :
    (∀ content filename content_type,
      create_download_response content filename content_type = none) ∧
    ((HistoricalPostsDownloadView.post
        { user := { id := 1, username := "alice", email := "a@e", first_name := "",
                    last_name := "", last_download := none, download_count := 0 }
          posts := [], categories := [], logs := [], nextRequestId := 0 }
        { date_from := none, date_to := none, format := some "json",
          include_private := none, category := none }
        "127.0.0.1" "ua" 0 1 ⟨2024, 1, 2, 3, 4, 5⟩).response
      = ViewResponse.fileResponse none) ∧
    ((HistoricalPostsDownloadView.post
        { user := { id := 1, username := "alice", email := "a@e", first_name := "",
                    last_name := "", last_download := none, download_count := 0 }
          posts := [], categories := [], logs := [], nextRequestId := 0 }
        { date_from := none, date_to := none, format := some "json",
          include_private := none, category := none }
        "127.0.0.1" "ua" 0 1 ⟨2024, 1, 2, 3, 4, 5⟩).response.status ≠ some 200) := by
  refine ⟨fun _ _ _ => rfl, ?_, ?_⟩ <;>
    simp [HistoricalPostsDownloadView.post, HistoricalPostsDownloadView.build_queryset,
      HistoricalDownloadSerializer.is_valid, HistoricalDownloadSerializer.errors,
      HistoricalDownloadSerializer.validated, CustomUser.can_download,
      List.mergeSort_nil, max_records, HistoricalPostsDownloadView.export_data,
      create_download_response, ViewResponse.status]

/-! ## Claim C7 -/

/-- C7: every exporter format reports the record set's cardinality — the JSON
document's `total_posts`, the XML root's `total_posts` attribute, and the
CSV's data row count; the CSV has a single header row with exactly the 15
named columns, and a missing category or publication date renders as the empty
string in its cell. -/
theorem C7_exporter_counts_and_csv_shape (posts : List BlogPost) (nowIso : String) :
    (DataExporter.export_posts_to_json_doc posts nowIso).total_posts = posts.length ∧
    (DataExporter.export_posts_to_xml_tree posts nowIso).attrs =
      [("export_date", nowIso), ("total_posts", toString posts.length)] ∧
    DataExporter.export_posts_to_csv_rows posts =
      DataExporter.csv_header :: posts.map DataExporter.csvPostRow ∧
    DataExporter.csv_header =
      ["ID", "Title", "Content", "Excerpt", "Author Username", "Author Email",
       "Category", "Tags", "Is Public", "Status", "View Count", "Like Count",
       "Created At", "Updated At", "Publication Date"] ∧
    DataExporter.csv_header.length = 15 ∧
    (posts.map DataExporter.csvPostRow).length = posts.length ∧
    (∀ p ∈ posts, (DataExporter.csvPostRow p).length = 15) ∧
    (∀ p ∈ posts, p.category = none → (DataExporter.csvPostRow p)[6]? = some "") ∧
    (∀ p ∈ posts, p.publication_date = none → (DataExporter.csvPostRow p)[14]? = some "") := by
  refine ⟨?_, rfl, rfl, rfl, rfl, List.length_map posts _, fun p _ => rfl,
    fun p _ h => ?_, fun p _ h => ?_⟩
  · simp [DataExporter.export_posts_to_json_doc]
  · simp [DataExporter.csvPostRow, h]
  · simp [DataExporter.csvPostRow, h]

/-- Witness for C7 on a one-record set whose post has neither category nor
publication date: both cells render empty and the counts are 1. -/
theorem C7_exporter_counts_and_csv_shape_witness :
    ((DataExporter.export_posts_to_json_doc
        [{ id := 7, title := "t", content := "c", excerpt := "e",
           author := { id := 1, username := "u", email := "u@e", first_name := "",
                       last_name := "", last_download := none, download_count := 0 },
           category := none, tags := [], is_public := true, status := "published",
           view_count := 0, like_count := 0, created_at := ⟨2024, 1, 1, 0, 0, 0⟩,
           updated_at := ⟨2024, 1, 1, 0, 0, 0⟩, publication_date := none }] "now").total_posts = 1) ∧
    ((DataExporter.csvPostRow
        { id := 7, title := "t", content := "c", excerpt := "e",
          author := { id := 1, username := "u", email := "u@e", first_name := "",
                      last_name := "", last_download := none, download_count := 0 },
          category := none, tags := [], is_public := true, status := "published",
          view_count := 0, like_count := 0, created_at := ⟨2024, 1, 1, 0, 0, 0⟩,
          updated_at := ⟨2024, 1, 1, 0, 0, 0⟩, publication_date := none })[6]? = some "") ∧
    ((DataExporter.csvPostRow
        { id := 7, title := "t", content := "c", excerpt := "e",
          author := { id := 1, username := "u", email := "u@e", first_name := "",
                      last_name := "", last_download := none, download_count := 0 },
          category := none, tags := [], is_public := true, status := "published",
          view_count := 0, like_count := 0, created_at := ⟨2024, 1, 1, 0, 0, 0⟩,
          updated_at := ⟨2024, 1, 1, 0, 0, 0⟩, publication_date := none })[14]? = some "") := by
  refine ⟨(C7_exporter_counts_and_csv_shape _ "now").1, ?_, ?_⟩
  · exact (C7_exporter_counts_and_csv_shape [_] "now").2.2.2.2.2.2.2.1 _
      (List.mem_singleton.mpr rfl) rfl
  · exact (C7_exporter_counts_and_csv_shape [_] "now").2.2.2.2.2.2.2.2 _
      (List.mem_singleton.mpr rfl) rfl

/-! ## Claim C9 -/

lemma length_filter_bool_split {α : Type} (p : α → Bool) (l : List α) :
    l.length = (l.filter p).length + (l.filter fun a => !p a).length := by
  induction l with
  | nil => rfl
  | cons a t ih => cases h : p a <;> simp [List.filter_cons, h, ih] <;> omega

/-- C9: the usage statistics partition the caller's ledger rows:
`total_downloads = successful_downloads + failed_downloads`; and a ledger row
that is still pending (`completed_at` null, `is_successful` at its default
false) is counted in `failed_downloads`, not excluded (adding such a row to
the ledger raises `failed_downloads` by one and leaves
`successful_downloads` unchanged). -/
theorem C9_stats_partition_counts_pending_as_failed
    (allLogs : List DownloadLog) (u : CustomUser) (now : ℚ) (l : DownloadLog) :
    ((DownloadUsageView.get_usage_stats allLogs u now).total_downloads =
      (DownloadUsageView.get_usage_stats allLogs u now).successful_downloads +
      (DownloadUsageView.get_usage_stats allLogs u now).failed_downloads) ∧
    (l.user_id = u.id → l.completed_at = none → l.is_successful = false →
      (DownloadUsageView.get_usage_stats (allLogs ++ [l]) u now).failed_downloads =
        (DownloadUsageView.get_usage_stats allLogs u now).failed_downloads + 1 ∧
      (DownloadUsageView.get_usage_stats (allLogs ++ [l]) u now).successful_downloads =
        (DownloadUsageView.get_usage_stats allLogs u now).successful_downloads) := by
  constructor
  · simpa [DownloadUsageView.get_usage_stats] using
      length_filter_bool_split (fun x => x.is_successful)
        (allLogs.filter fun x => x.user_id == u.id)
  · intro hid hpend hsucc
    constructor <;>
      simp [DownloadUsageView.get_usage_stats, List.filter_append, hid, hsucc]

/-- Witness for C9: a fresh pending ledger entry added to an empty ledger is
reported as one failed download and zero successful ones. -/
theorem C9_stats_partition_counts_pending_as_failed_witness :
    (DownloadUsageView.get_usage_stats
        ([] ++ [DownloadLog.create 1 "historical_posts" "json" "ip" "ua" [] 0 0])
        { id := 1, username := "u", email := "u@e", first_name := "", last_name := "",
          last_download := none, download_count := 0 } 0).failed_downloads = 1 ∧
    (DownloadUsageView.get_usage_stats
        ([] ++ [DownloadLog.create 1 "historical_posts" "json" "ip" "ua" [] 0 0])
        { id := 1, username := "u", email := "u@e", first_name := "", last_name := "",
          last_download := none, download_count := 0 } 0).successful_downloads = 0 := by
  have h := (C9_stats_partition_counts_pending_as_failed []
    ({ id := 1, username := "u", email := "u@e", first_name := "", last_name := "",
       last_download := none, download_count := 0 } : CustomUser) 0
    (DownloadLog.create 1 "historical_posts" "json" "ip" "ua" [] 0 0)).2 rfl rfl rfl
  exact ⟨h.1, h.2⟩

/-! ## Claim C8 -/

/-- The scenario user of the usage-stats claim. -/
def c8User : CustomUser :=
  { id := 1, username := "u", email := "u@e", first_name := "", last_name := "",
    last_download := none, download_count := 2 }

/-- Scenario ledger: two successful downloads of 100 and 200 bytes and one
failed download, all belonging to `c8User`. -/
def c8Logs : List DownloadLog :=
  [{ user_id := 1, download_type := "historical_posts", file_format := "json",
     ip_address := "ip", user_agent := "ua", request_id := 10, filters_applied := [],
     total_records := 1, file_size_bytes := some 100, processing_time_seconds := 0,
     is_successful := true, error_message := "", requested_at := 0, completed_at := some 1 },
   { user_id := 1, download_type := "historical_posts", file_format := "json",
     ip_address := "ip", user_agent := "ua", request_id := 11, filters_applied := [],
     total_records := 1, file_size_bytes := some 200, processing_time_seconds := 0,
     is_successful := true, error_message := "", requested_at := 0, completed_at := some 2 },
   { user_id := 1, download_type := "historical_posts", file_format := "json",
     ip_address := "ip", user_agent := "ua", request_id := 12, filters_applied := [],
     total_records := 0, file_size_bytes := some 0, processing_time_seconds := 0,
     is_successful := false, error_message := "boom", requested_at := 0, completed_at := some 3 }]

/-- C8: the usage statistics compute `success_rate` as
`successful/total*100` rounded to 2 decimals (0 when there are no attempts)
and `total_data_downloaded_mb` as the byte sum over successful entries only
(null sizes as 0) divided by 1,048,576 and rounded to 2 decimals; on the
2-success (100 and 200 bytes) + 1-failure scenario this yields totals 3/2/1,
`success_rate = 66.67` and `total_data_downloaded_mb = round(300/1048576, 2)
= 0`. -/
theorem C8_usage_stats_rate_and_volume
    (allLogs : List DownloadLog) (u : CustomUser) (now : ℚ) :
    ((DownloadUsageView.get_usage_stats allLogs u now).success_rate =
      pyRound2 (if 0 < (allLogs.filter fun l => l.user_id == u.id).length then
        (((allLogs.filter fun l => l.user_id == u.id).filter
            fun l => l.is_successful).length : ℚ) /
          ((allLogs.filter fun l => l.user_id == u.id).length : ℚ) * 100
      else 0)) ∧
    ((allLogs.filter fun l => l.user_id == u.id).length = 0 →
      (DownloadUsageView.get_usage_stats allLogs u now).success_rate = 0) ∧
    ((DownloadUsageView.get_usage_stats allLogs u now).total_data_downloaded_mb =
      pyRound2 ((((((allLogs.filter fun l => l.user_id == u.id).filter
          fun l => l.is_successful).map fun l => l.file_size_bytes.getD 0).sum : ℕ) : ℚ) /
        (1024 * 1024))) ∧
    (DownloadUsageView.get_usage_stats c8Logs c8User 0).total_downloads = 3 ∧
    (DownloadUsageView.get_usage_stats c8Logs c8User 0).successful_downloads = 2 ∧
    (DownloadUsageView.get_usage_stats c8Logs c8User 0).failed_downloads = 1 ∧
    (DownloadUsageView.get_usage_stats c8Logs c8User 0).success_rate = 6667 / 100 ∧
    (DownloadUsageView.get_usage_stats c8Logs c8User 0).total_data_downloaded_mb = 0 := by
  have htot : (c8Logs.filter fun l => l.user_id == c8User.id).length = 3 := by decide
  have hsucc : ((c8Logs.filter fun l => l.user_id == c8User.id).filter
      fun l => l.is_successful).length = 2 := by decide
  have hsum : (((c8Logs.filter fun l => l.user_id == c8User.id).filter
      fun l => l.is_successful).map fun l => l.file_size_bytes.getD 0).sum = 300 := by decide
  have hrate : pyRound2 ((2 : ℚ) / 3 * 100) = 6667 / 100 := by
    have hx : ((2 : ℚ) / 3 * 100) * 100 = 20000 / 3 := by ring
    have hfl : ⌊((2 : ℚ) / 3 * 100) * 100⌋ = (6666 : ℤ) := by
      rw [hx, Int.floor_eq_iff] <;> norm_num
    unfold pyRound2 roundHalfEven
    rw [hfl]
    norm_num [hx]
  have hmb : pyRound2 ((300 : ℚ) / (1024 * 1024)) = 0 := by
    have hfl : ⌊((300 : ℚ) / (1024 * 1024)) * 100⌋ = (0 : ℤ) := by
      rw [Int.floor_eq_iff] <;> norm_num
    unfold pyRound2 roundHalfEven
    rw [hfl]
    norm_num
  refine ⟨rfl, fun h => ?_, rfl, by decide, by decide, by decide, ?_, ?_⟩
  · simp only [DownloadUsageView.get_usage_stats, h]
    norm_num [pyRound2, roundHalfEven]
  · have e1 : (DownloadUsageView.get_usage_stats c8Logs c8User 0).success_rate =
        pyRound2 ((2 : ℚ) / 3 * 100) := by
      simp only [DownloadUsageView.get_usage_stats]
      rw [htot, hsucc]
      norm_num
    rw [e1, hrate]
  · have e2 : (DownloadUsageView.get_usage_stats c8Logs c8User 0).total_data_downloaded_mb =
        pyRound2 ((300 : ℚ) / (1024 * 1024)) := by
      simp only [DownloadUsageView.get_usage_stats]
      rw [hsum]
      norm_num
    rw [e2, hmb]

/-- Witness for C8's zero-attempt guard: a user with no ledger rows reports a
success rate of 0. -/
theorem C8_usage_stats_rate_and_volume_witness :
    (DownloadUsageView.get_usage_stats [] c8User 0).success_rate = 0 :=
  (C8_usage_stats_rate_and_volume [] c8User 0).2.1 rfl

/-! ## Claim C6 -/

/-- C6: a structurally invalid payload (a `format` outside the three choices,
or both date bounds present with `date_from > date_to`) makes the historical
orchestrator terminate immediately with a 400 client error: no ledger entry is
created, nothing in the database changes, and the rate limiter is never
consulted (the same 400 results whatever the account's `last_download` is). -/
theorem C6_invalid_payload_rejected_without_side_effects
    (st : AppState) (req : HistoricalRequestData) (ip ua : String)
    (t0 now : ℚ) (nowDT : DateTime)
    (h : (∃ f, req.format = some f ∧ (["json", "csv", "xml"].contains f = false)) ∨
         (∃ a b, req.date_from = some a ∧ req.date_to = some b ∧ Date.lt b a = true)) :
    (HistoricalPostsDownloadView.post st req ip ua t0 now nowDT).response =
      ViewResponse.validationError (HistoricalDownloadSerializer.errors req) ∧
    (HistoricalPostsDownloadView.post st req ip ua t0 now nowDT).response.status = some 400 ∧
    (HistoricalPostsDownloadView.post st req ip ua t0 now nowDT).state = st ∧
    (HistoricalPostsDownloadView.post st req ip ua t0 now nowDT).trace = [] ∧
    (∀ ld : Option ℚ,
      (HistoricalPostsDownloadView.post
        { st with user := { st.user with last_download := ld } } req ip ua t0 now nowDT).response =
      ViewResponse.validationError (HistoricalDownloadSerializer.errors req)) := by
  have hinvalid : HistoricalDownloadSerializer.is_valid req = false := by
    rcases h with ⟨f, hf, hmem⟩ | ⟨a, b, ha, hb, hlt⟩
    · simp only [HistoricalDownloadSerializer.is_valid,
        HistoricalDownloadSerializer.errors, hf, hmem, Bool.false_eq_true, if_false]
      simp [List.isEmpty_iff, List.append_eq_nil]
    · simp only [HistoricalDownloadSerializer.is_valid,
        HistoricalDownloadSerializer.errors, ha, hb, hlt, if_true]
      simp [List.isEmpty_iff, List.append_eq_nil]
  refine ⟨?_, ?_, ?_, ?_, fun ld => ?_⟩ <;>
    simp [HistoricalPostsDownloadView.post, hinvalid, ViewResponse.status]

/-- Witness for C6 on the spec's scenario: `date_from = 2024-12-31`,
`date_to = 2024-01-01` yields a 400 and leaves an arbitrary concrete state
untouched. -/
theorem C6_invalid_payload_rejected_without_side_effects_witness :
    (HistoricalPostsDownloadView.post
        { user := { id := 1, username := "u", email := "u@e", first_name := "",
                    last_name := "", last_download := none, download_count := 0 }
          posts := [], categories := [], logs := [], nextRequestId := 5 }
        { date_from := some ⟨2024, 12, 31⟩, date_to := some ⟨2024, 1, 1⟩,
          format := some "json", include_private := none, category := none }
        "ip" "ua" 0 0 ⟨2024, 1, 1, 0, 0, 0⟩).response.status = some 400 ∧
    (HistoricalPostsDownloadView.post
        { user := { id := 1, username := "u", email := "u@e", first_name := "",
                    last_name := "", last_download := none, download_count := 0 }
          posts := [], categories := [], logs := [], nextRequestId := 5 }
        { date_from := some ⟨2024, 12, 31⟩, date_to := some ⟨2024, 1, 1⟩,
          format := some "json", include_private := none, category := none }
        "ip" "ua" 0 0 ⟨2024, 1, 1, 0, 0, 0⟩).trace = [] := by
  have h := C6_invalid_payload_rejected_without_side_effects
    { user := { id := 1, username := "u", email := "u@e", first_name := "",
                last_name := "", last_download := none, download_count := 0 }
      posts := [], categories := [], logs := [], nextRequestId := 5 }
    { date_from := some ⟨2024, 12, 31⟩, date_to := some ⟨2024, 1, 1⟩,
      format := some "json", include_private := none, category := none }
    "ip" "ua" 0 0 ⟨2024, 1, 1, 0, 0, 0⟩
    (Or.inr ⟨⟨2024, 12, 31⟩, ⟨2024, 1, 1⟩, rfl, rfl, by decide⟩)
  exact ⟨h.2.1, h.2.2.2.1⟩

/-! ## Claim C10 -/

lemma mark_failed_error_message (log : DownloadLog) (msg : String) (n : ℚ) :
    (log.mark_failed msg n).error_message = msg := rfl

/-- C10: for a valid, rate-checked request that carries no date bounds (a
date-bounded request never reaches the category clause: the view's date
branches raise `AttributeError` first), a category filter value matching two
or more distinct categories case-insensitively makes `Category.objects.get`
raise `MultipleObjectsReturned` — which the category clause does not catch (it
only catches `DoesNotExist`): the request produces no category-filtered export
and falls through to the generic server-error path, which finalizes the
already-created ledger entry as failed with Django's count-interpolated
message and returns a 500 carrying that entry's request identifier. -/
theorem C10_ambiguous_category_falls_to_server_error
    (st : AppState) (req : HistoricalRequestData) (ip ua : String)
    (t0 now : ℚ) (nowDT : DateTime) (value : String)
    (hvalid : HistoricalDownloadSerializer.is_valid req = true)
    (hrate : st.user.can_download now = true)
    (hdf : req.date_from = none)
    (hdt : req.date_to = none)
    (hcat : req.category = some value)
    (hmulti : 2 ≤ (st.categories.filter fun c => icontains c.name value).length) :
    (HistoricalPostsDownloadView.post st req ip ua t0 now nowDT).response =
      ViewResponse.serverError "Download failed. Please try again later." st.nextRequestId ∧
    (HistoricalPostsDownloadView.post st req ip ua t0 now nowDT).response.status = some 500 ∧
    (∃ l, (HistoricalPostsDownloadView.post st req ip ua t0 now nowDT).trace =
        [LedgerOp.create l,
         LedgerOp.fail l.request_id
           (multipleCategoriesMessage
             (st.categories.filter fun c => icontains c.name value).length) now] ∧
      l.request_id = st.nextRequestId ∧ l.completed_at = none) ∧
    (∀ p, (HistoricalPostsDownloadView.post st req ip ua t0 now nowDT).response ≠
      ViewResponse.fileResponse p) ∧
    (∃ l', l' ∈ (HistoricalPostsDownloadView.post st req ip ua t0 now nowDT).state.logs ∧
      l'.request_id = st.nextRequestId ∧ l'.is_successful = false ∧
      l'.completed_at = some now ∧
      l'.error_message = multipleCategoriesMessage
        (st.categories.filter fun c => icontains c.name value).length) := by
  have hget : categoryGetIcontains st.categories value =
      .multipleObjectsReturned
        (st.categories.filter fun c => icontains c.name value).length := by
    cases hfl : st.categories.filter fun c => icontains c.name value with
    | nil => rw [hfl] at hmulti; simp at hmulti
    | cons a t =>
        cases t with
        | nil => rw [hfl] at hmulti; simp at hmulti
        | cons b t2 =>
            simp only [categoryGetIcontains, hfl, List.length_cons]
  have hv : HistoricalDownloadSerializer.validated req =
      { date_from := none, date_to := none,
        format := req.format.getD "json",
        include_private := req.include_private.getD false,
        category := some value } := by
    simp [HistoricalDownloadSerializer.validated, hdf, hdt, hcat]
  have hbuild : HistoricalPostsDownloadView.build_queryset st.user
      (HistoricalDownloadSerializer.validated req) st.posts st.categories =
      .error (multipleCategoriesMessage
        (st.categories.filter fun c => icontains c.name value).length) := by
    unfold HistoricalPostsDownloadView.build_queryset
    rw [hv]
    simp only [hget]
  have hpost : HistoricalPostsDownloadView.post st req ip ua t0 now nowDT =
      { response := .serverError "Download failed. Please try again later." st.nextRequestId
        state := { st with
          logs := applyOps st.logs
            [LedgerOp.create (DownloadLog.create st.user.id "historical_posts"
                (HistoricalDownloadSerializer.validated req).format ip ua
                (HistoricalDownloadSerializer.snapshot req) st.nextRequestId now),
             LedgerOp.fail st.nextRequestId
               (multipleCategoriesMessage
                 (st.categories.filter fun c => icontains c.name value).length) now]
          nextRequestId := st.nextRequestId + 1 }
        trace := [LedgerOp.create (DownloadLog.create st.user.id "historical_posts"
            (HistoricalDownloadSerializer.validated req).format ip ua
            (HistoricalDownloadSerializer.snapshot req) st.nextRequestId now),
          LedgerOp.fail st.nextRequestId
            (multipleCategoriesMessage
              (st.categories.filter fun c => icontains c.name value).length) now] } := by
    simp [HistoricalPostsDownloadView.post, hvalid, hrate, hbuild, DownloadLog.create]
  refine ⟨by rw [hpost], by rw [hpost]; rfl, ?_, fun p hp => ?_, ?_⟩
  · exact ⟨DownloadLog.create st.user.id "historical_posts"
      (HistoricalDownloadSerializer.validated req).format ip ua
      (HistoricalDownloadSerializer.snapshot req) st.nextRequestId now,
      by rw [hpost]; rfl, rfl, rfl⟩
  · rw [hpost] at hp
    exact ViewResponse.noConfusion hp
  · refine ⟨(DownloadLog.create st.user.id "historical_posts"
        (HistoricalDownloadSerializer.validated req).format ip ua
        (HistoricalDownloadSerializer.snapshot req) st.nextRequestId now).mark_failed
          (multipleCategoriesMessage
            (st.categories.filter fun c => icontains c.name value).length) now,
      ?_, ?_, ?_, ?_, ?_⟩
    · rw [hpost]
      simp only [applyOps, List.foldl_cons, List.foldl_nil, applyOp]
      refine List.mem_map.mpr ⟨DownloadLog.create st.user.id "historical_posts"
        (HistoricalDownloadSerializer.validated req).format ip ua
        (HistoricalDownloadSerializer.snapshot req) st.nextRequestId now,
        List.mem_append_right _ (List.mem_singleton.mpr rfl), ?_⟩
      simp [DownloadLog.create]
    · rfl
    · rfl
    · rfl
    · exact mark_failed_error_message _ _ _

/-- Witness for C10: two categories both containing "tech" make a validated,
rate-checked, date-free request with `category="tech"` end in a 500 whose
request id is the created entry's, the entry being marked failed with Django's
count-interpolated message for 2 matches. -/
theorem C10_ambiguous_category_falls_to_server_error_witness :
    (HistoricalPostsDownloadView.post
        { user := { id := 1, username := "u", email := "u@e", first_name := "",
                    last_name := "", last_download := none, download_count := 0 }
          posts := [], categories := [⟨"Tech", "tech"⟩, ⟨"Technology", "technology"⟩],
          logs := [], nextRequestId := 3 }
        { date_from := none, date_to := none, format := some "json",
          include_private := none, category := some "tech" }
        "ip" "ua" 0 0 ⟨2024, 1, 1, 0, 0, 0⟩).response =
      ViewResponse.serverError "Download failed. Please try again later." 3 ∧
    (∃ l', l' ∈ (HistoricalPostsDownloadView.post
        { user := { id := 1, username := "u", email := "u@e", first_name := "",
                    last_name := "", last_download := none, download_count := 0 }
          posts := [], categories := [⟨"Tech", "tech"⟩, ⟨"Technology", "technology"⟩],
          logs := [], nextRequestId := 3 }
        { date_from := none, date_to := none, format := some "json",
          include_private := none, category := some "tech" }
        "ip" "ua" 0 0 ⟨2024, 1, 1, 0, 0, 0⟩).state.logs ∧
      l'.is_successful = false ∧
      l'.error_message = "get() returned more than one Category -- it returned 2!") := by
  have h := C10_ambiguous_category_falls_to_server_error
    { user := { id := 1, username := "u", email := "u@e", first_name := "",
                last_name := "", last_download := none, download_count := 0 }
      posts := [], categories := [⟨"Tech", "tech"⟩, ⟨"Technology", "technology"⟩],
      logs := [], nextRequestId := 3 }
    { date_from := none, date_to := none, format := some "json",
      include_private := none, category := some "tech" }
    "ip" "ua" 0 0 ⟨2024, 1, 1, 0, 0, 0⟩ "tech" rfl rfl rfl rfl rfl (by decide)
  refine ⟨h.1, ?_⟩
  obtain ⟨l', hmem, hid, hsucc, hcomp, hmsg⟩ := h.2.2.2.2
  refine ⟨l', hmem, hsucc, ?_⟩
  rw [hmsg]
  decide

/-! ## Claim C5 -/

/-- C5: in the historical flow the capacity guard fires strictly above 10,000
candidate records: with exactly 10,000 the run is not rejected as too large
(it proceeds to rendering and a successful ledger completion), while with
10,001 the guard finalizes the ledger entry as failed with the descriptive
message, answers 413 with the actual candidate count, and renders no export. -/
theorem C5_capacity_guard_boundary
    (st : AppState) (req : HistoricalRequestData) (ip ua : String)
    (t0 now : ℚ) (nowDT : DateTime) (qs : List BlogPost)
    (hvalid : HistoricalDownloadSerializer.is_valid req = true)
    (hrate : st.user.can_download now = true)
    (hbuild : HistoricalPostsDownloadView.build_queryset st.user
      (HistoricalDownloadSerializer.validated req) st.posts st.categories = .ok qs) :
    (qs.length = 10000 →
      (∀ e c, (HistoricalPostsDownloadView.post st req ip ua t0 now nowDT).response ≠
        ViewResponse.tooLarge e c) ∧
      (∃ payload, (HistoricalPostsDownloadView.post st req ip ua t0 now nowDT).response =
        ViewResponse.fileResponse payload) ∧
      (∃ l, (HistoricalPostsDownloadView.post st req ip ua t0 now nowDT).trace =
        [LedgerOp.create l,
         LedgerOp.complete l.request_id qs.length
           ((HistoricalPostsDownloadView.export_data qs
             (HistoricalDownloadSerializer.validated req).format nowDT.isoformat).1.utf8ByteSize)
           (now - t0) now] ∧ l.completed_at = none)) ∧
    (qs.length = 10001 →
      (HistoricalPostsDownloadView.post st req ip ua t0 now nowDT).response =
        ViewResponse.tooLarge
          ("Too many records requested. Maximum allowed: " ++ toString max_records) 10001 ∧
      (HistoricalPostsDownloadView.post st req ip ua t0 now nowDT).response.status = some 413 ∧
      (∃ l, (HistoricalPostsDownloadView.post st req ip ua t0 now nowDT).trace =
        [LedgerOp.create l,
         LedgerOp.fail l.request_id
           ("Too many records requested. Maximum allowed: " ++ toString max_records) now] ∧
        l.completed_at = none) ∧
      (∀ p, (HistoricalPostsDownloadView.post st req ip ua t0 now nowDT).response ≠
        ViewResponse.fileResponse p) ∧
      (∃ l', l' ∈ (HistoricalPostsDownloadView.post st req ip ua t0 now nowDT).state.logs ∧
        l'.is_successful = false ∧
        l'.error_message =
          "Too many records requested. Maximum allowed: " ++ toString max_records)) := by
  constructor
  · intro hlen
    have hguard : ¬ (qs.length > max_records) := by rw [hlen]; decide
    have hpost : HistoricalPostsDownloadView.post st req ip ua t0 now nowDT =
        { response := .fileResponse (create_download_response
            (HistoricalPostsDownloadView.export_data qs
              (HistoricalDownloadSerializer.validated req).format nowDT.isoformat).1
            ("historical_posts_" ++ nowDT.strftimeCompact ++ "." ++
              (HistoricalPostsDownloadView.export_data qs
                (HistoricalDownloadSerializer.validated req).format nowDT.isoformat).2.2)
            (HistoricalPostsDownloadView.export_data qs
              (HistoricalDownloadSerializer.validated req).format nowDT.isoformat).2.1)
          state := { st with
            user := st.user.increment_download_count now
            logs := applyOps st.logs
              [LedgerOp.create (DownloadLog.create st.user.id "historical_posts"
                  (HistoricalDownloadSerializer.validated req).format ip ua
                  (HistoricalDownloadSerializer.snapshot req) st.nextRequestId now),
               LedgerOp.complete st.nextRequestId qs.length
                 ((HistoricalPostsDownloadView.export_data qs
                   (HistoricalDownloadSerializer.validated req).format nowDT.isoformat).1.utf8ByteSize)
                 (now - t0) now]
            nextRequestId := st.nextRequestId + 1 }
          trace := [LedgerOp.create (DownloadLog.create st.user.id "historical_posts"
              (HistoricalDownloadSerializer.validated req).format ip ua
              (HistoricalDownloadSerializer.snapshot req) st.nextRequestId now),
            LedgerOp.complete st.nextRequestId qs.length
              ((HistoricalPostsDownloadView.export_data qs
                (HistoricalDownloadSerializer.validated req).format nowDT.isoformat).1.utf8ByteSize)
              (now - t0) now] } := by
      simp [HistoricalPostsDownloadView.post, hvalid, hrate, hbuild, hguard,
        DownloadLog.create]
    refine ⟨fun e c hne => ?_, ⟨_, by rw [hpost]⟩,
      ⟨DownloadLog.create st.user.id "historical_posts"
        (HistoricalDownloadSerializer.validated req).format ip ua
        (HistoricalDownloadSerializer.snapshot req) st.nextRequestId now,
        by rw [hpost]; rfl, rfl⟩⟩
    rw [hpost] at hne
    exact ViewResponse.noConfusion hne
  · intro hlen
    have hguard : qs.length > max_records := by rw [hlen]; decide
    have hguard10000 : 10000 < qs.length := by rw [hlen]; decide
    have hpost : HistoricalPostsDownloadView.post st req ip ua t0 now nowDT =
        { response := .tooLarge
            ("Too many records requested. Maximum allowed: " ++ toString max_records) qs.length
          state := { st with
            logs := applyOps st.logs
              [LedgerOp.create (DownloadLog.create st.user.id "historical_posts"
                  (HistoricalDownloadSerializer.validated req).format ip ua
                  (HistoricalDownloadSerializer.snapshot req) st.nextRequestId now),
               LedgerOp.fail st.nextRequestId
                 ("Too many records requested. Maximum allowed: " ++ toString max_records) now]
            nextRequestId := st.nextRequestId + 1 }
          trace := [LedgerOp.create (DownloadLog.create st.user.id "historical_posts"
              (HistoricalDownloadSerializer.validated req).format ip ua
              (HistoricalDownloadSerializer.snapshot req) st.nextRequestId now),
            LedgerOp.fail st.nextRequestId
              ("Too many records requested. Maximum allowed: " ++ toString max_records) now] } := by
      simp [HistoricalPostsDownloadView.post, hvalid, hrate, hbuild, hguard,
        hguard10000, DownloadLog.create, max_records]
    refine ⟨by rw [hpost, hlen], by rw [hpost]; rfl,
      ⟨DownloadLog.create st.user.id "historical_posts"
        (HistoricalDownloadSerializer.validated req).format ip ua
        (HistoricalDownloadSerializer.snapshot req) st.nextRequestId now,
        by rw [hpost]; rfl, rfl⟩,
      fun p hp => ?_, ?_⟩
    · rw [hpost] at hp
      exact ViewResponse.noConfusion hp
    · refine ⟨(DownloadLog.create st.user.id "historical_posts"
          (HistoricalDownloadSerializer.validated req).format ip ua
          (HistoricalDownloadSerializer.snapshot req) st.nextRequestId now).mark_failed
            ("Too many records requested. Maximum allowed: " ++ toString max_records) now,
        ?_, rfl, rfl⟩
      rw [hpost]
      simp only [applyOps, List.foldl_cons, List.foldl_nil, applyOp]
      refine List.mem_map.mpr ⟨DownloadLog.create st.user.id "historical_posts"
        (HistoricalDownloadSerializer.validated req).format ip ua
        (HistoricalDownloadSerializer.snapshot req) st.nextRequestId now,
        List.mem_append_right _ (List.mem_singleton.mpr rfl), ?_⟩
      simp [DownloadLog.create]

/-- The author/requester of the capacity-boundary witness states. -/
def c5Author : CustomUser :=
  { id := 1, username := "author", email := "a@e", first_name := "", last_name := "",
    last_download := none, download_count := 0 }

/-- One public published post of the capacity-boundary witness states. -/
def mkC5Post (i : Nat) : BlogPost :=
  { id := i, title := "t", content := "c", excerpt := "e", author := c5Author,
    category := none, tags := [], is_public := true, status := "published",
    view_count := 0, like_count := 0, created_at := ⟨2024, 1, 1, 0, 0, 0⟩,
    updated_at := ⟨2024, 1, 1, 0, 0, 0⟩, publication_date := none }

/-- The unfiltered request of the capacity-boundary witness. -/
def c5Req : HistoricalRequestData :=
  { date_from := none, date_to := none, format := none,
    include_private := none, category := none }

/-- The `n` public published posts of the capacity-boundary witness states
(kept irreducible so that elaboration never walks the ten-thousand-element
list term). -/
@[irreducible] def c5Posts (n : Nat) : List BlogPost :=
  (List.range n).map mkC5Post

lemma c5Posts_def (n : Nat) : c5Posts n = (List.range n).map mkC5Post := by
  unfold c5Posts
  rfl

/-- A database with `n` public published posts and a fresh requester. -/
def c5State (n : Nat) : AppState :=
  { user := c5Author, posts := c5Posts n, categories := [],
    logs := [], nextRequestId := 0 }

lemma c5_build (n : Nat) :
    HistoricalPostsDownloadView.build_queryset (c5State n).user
      (HistoricalDownloadSerializer.validated c5Req) (c5State n).posts
      (c5State n).categories = .ok (c5State n).posts := by
  show HistoricalPostsDownloadView.build_queryset c5Author
    (HistoricalDownloadSerializer.validated c5Req) (c5Posts n) [] =
    .ok (c5Posts n)
  rw [c5Posts_def]
  have hall : ∀ p ∈ (List.range n).map mkC5Post,
      ((p.is_public && p.status == "published") || p.author.id == c5Author.id) = true := by
    intro p hp
    rcases List.mem_map.mp hp with ⟨i, _, rfl⟩
    rfl
  have hall2 : ∀ p ∈ (List.range n).map mkC5Post,
      (p.is_public || (p.author.id == c5Author.id && !p.is_public)) = true := by
    intro p hp
    rcases List.mem_map.mp hp with ⟨i, _, rfl⟩
    rfl
  have hsorted : ((List.range n).map mkC5Post).Pairwise
      (fun a b => createdDescLe a b = true) := by
    refine List.pairwise_of_forall_mem_list ?_
    intro a ha b hb
    rcases List.mem_map.mp ha with ⟨i, _, rfl⟩
    rcases List.mem_map.mp hb with ⟨j, _, rfl⟩
    rfl
  have h0 : HistoricalPostsDownloadView.build_queryset c5Author
      (HistoricalDownloadSerializer.validated c5Req) ((List.range n).map mkC5Post) [] =
      .ok (((((List.range n).map mkC5Post).filter fun p =>
          (p.is_public && p.status == "published") || p.author.id == c5Author.id).filter fun p =>
          p.is_public || (p.author.id == c5Author.id && !p.is_public)).mergeSort
        createdDescLe) := rfl
  rw [h0, List.filter_eq_self.mpr hall, List.filter_eq_self.mpr hall2,
    List.mergeSort_of_sorted hsorted]

/-- Witness for C5: 10,001 identical public published posts yield the 413 with
the actual count; 10,000 such posts pass the guard and reach the file path. -/
theorem C5_capacity_guard_boundary_witness :
    ((HistoricalPostsDownloadView.post (c5State 10001) c5Req "ip" "ua" 0 0
        ⟨2024, 1, 1, 0, 0, 0⟩).response =
      ViewResponse.tooLarge
        ("Too many records requested. Maximum allowed: " ++ toString max_records) 10001) ∧
    (∃ payload, (HistoricalPostsDownloadView.post (c5State 10000) c5Req "ip" "ua" 0 0
        ⟨2024, 1, 1, 0, 0, 0⟩).response = ViewResponse.fileResponse payload) := by
  have hlen1 : (c5State 10001).posts.length = 10001 := by
    show (c5Posts 10001).length = 10001
    rw [c5Posts_def, List.length_map, List.length_range]
  have hlen0 : (c5State 10000).posts.length = 10000 := by
    show (c5Posts 10000).length = 10000
    rw [c5Posts_def, List.length_map, List.length_range]
  constructor
  · exact ((C5_capacity_guard_boundary (c5State 10001) c5Req "ip" "ua" 0 0
      ⟨2024, 1, 1, 0, 0, 0⟩ (c5State 10001).posts rfl rfl
      (c5_build 10001)).2 hlen1).1
  · exact ((C5_capacity_guard_boundary (c5State 10000) c5Req "ip" "ua" 0 0
      ⟨2024, 1, 1, 0, 0, 0⟩ (c5State 10000).posts rfl rfl
      (c5_build 10000)).1 hlen0).2.1

/-! ## Claim C3 -/

/-- C3 counterexample: on a concrete successful self-only export (the run's
single ledger entry is marked successful), the account's lifetime counter
stays 0 and its cooldown timestamp stays null — `UserPostsDownloadView.post`
never calls `increment_download_count` — refuting the claim that every
successful export flow updates both. -/
theorem C3_counterexample_self_export_updates_nothing :
    ((UserPostsDownloadView.post
        { user := { id := 1, username := "bob", email := "b@e", first_name := "",
                    last_name := "", last_download := none, download_count := 0 }
          posts := [], categories := [], logs := [], nextRequestId := 0 }
        (some "json") "ip" "ua" 0 7 ⟨2024, 1, 2, 3, 4, 5⟩).state.logs.map
        (fun l => l.is_successful)) = [true] ∧
    (UserPostsDownloadView.post
        { user := { id := 1, username := "bob", email := "b@e", first_name := "",
                    last_name := "", last_download := none, download_count := 0 }
          posts := [], categories := [], logs := [], nextRequestId := 0 }
        (some "json") "ip" "ua" 0 7 ⟨2024, 1, 2, 3, 4, 5⟩).state.user.download_count = 0 ∧
    (UserPostsDownloadView.post
        { user := { id := 1, username := "bob", email := "b@e", first_name := "",
                    last_name := "", last_download := none, download_count := 0 }
          posts := [], categories := [], logs := [], nextRequestId := 0 }
        (some "json") "ip" "ua" 0 7 ⟨2024, 1, 2, 3, 4, 5⟩).state.user.last_download = none := by
  refine ⟨?_, rfl, rfl⟩
  simp [UserPostsDownloadView.post, applyOps, applyOp, DownloadLog.create,
    DownloadLog.mark_completed]

/-- C3 amended: only the historical/all-visible flow updates the account on
success — it sets `last_download` to the completion instant and increments
`download_count` by one — while the self/owned-only flow leaves the account
row entirely unchanged in every run. -/
theorem C3_amended_cooldown_update_historical_only
    (st : AppState) (req : HistoricalRequestData) (ip ua : String)
    (t0 now : ℚ) (nowDT : DateTime) (qs : List BlogPost)
    (hvalid : HistoricalDownloadSerializer.is_valid req = true)
    (hrate : st.user.can_download now = true)
    (hbuild : HistoricalPostsDownloadView.build_queryset st.user
      (HistoricalDownloadSerializer.validated req) st.posts st.categories = .ok qs)
    (hguard : ¬ (qs.length > max_records)) :
    (HistoricalPostsDownloadView.post st req ip ua t0 now nowDT).state.user =
      st.user.increment_download_count now ∧
    (HistoricalPostsDownloadView.post st req ip ua t0 now nowDT).state.user.download_count =
      st.user.download_count + 1 ∧
    (HistoricalPostsDownloadView.post st req ip ua t0 now nowDT).state.user.last_download =
      some now ∧
    (∀ (st' : AppState) (format? : Option String) (ip' ua' : String)
        (t0' now' : ℚ) (nowDT' : DateTime),
      (UserPostsDownloadView.post st' format? ip' ua' t0' now' nowDT').state.user = st'.user) := by
  have huser : (HistoricalPostsDownloadView.post st req ip ua t0 now nowDT).state.user =
      st.user.increment_download_count now := by
    simp [HistoricalPostsDownloadView.post, hvalid, hrate, hbuild, hguard]
  refine ⟨huser, by rw [huser]; rfl, by rw [huser]; rfl, fun st' format? ip' ua' t0' now' nowDT' => ?_⟩
  simp only [UserPostsDownloadView.post]
  split
  · rfl
  · rfl

/-- Witness for the amended C3: a concrete successful historical export bumps
the counter from 0 to 1 and stamps the cooldown, while a concrete self-only
export leaves a fresh account untouched. -/
theorem C3_amended_cooldown_update_historical_only_witness :
    (HistoricalPostsDownloadView.post
        { user := { id := 1, username := "alice", email := "a@e", first_name := "",
                    last_name := "", last_download := none, download_count := 0 }
          posts := [], categories := [], logs := [], nextRequestId := 0 }
        { date_from := none, date_to := none, format := some "json",
          include_private := none, category := none }
        "ip" "ua" 0 7 ⟨2024, 1, 2, 3, 4, 5⟩).state.user.download_count = 1 ∧
    (HistoricalPostsDownloadView.post
        { user := { id := 1, username := "alice", email := "a@e", first_name := "",
                    last_name := "", last_download := none, download_count := 0 }
          posts := [], categories := [], logs := [], nextRequestId := 0 }
        { date_from := none, date_to := none, format := some "json",
          include_private := none, category := none }
        "ip" "ua" 0 7 ⟨2024, 1, 2, 3, 4, 5⟩).state.user.last_download = some 7 ∧
    (UserPostsDownloadView.post
        { user := { id := 2, username := "bob", email := "b@e", first_name := "",
                    last_name := "", last_download := none, download_count := 0 }
          posts := [], categories := [], logs := [], nextRequestId := 0 }
        (some "json") "ip" "ua" 0 7 ⟨2024, 1, 2, 3, 4, 5⟩).state.user =
      { id := 2, username := "bob", email := "b@e", first_name := "",
        last_name := "", last_download := none, download_count := 0 } := by
  have hbuild : HistoricalPostsDownloadView.build_queryset
      ({ id := 1, username := "alice", email := "a@e", first_name := "",
         last_name := "", last_download := none, download_count := 0 } : CustomUser)
      (HistoricalDownloadSerializer.validated
        { date_from := none, date_to := none, format := some "json",
          include_private := none, category := none }) [] [] = .ok [] := by
    simp [HistoricalPostsDownloadView.build_queryset,
      HistoricalDownloadSerializer.validated, List.mergeSort_nil]
  have h := C3_amended_cooldown_update_historical_only
    { user := { id := 1, username := "alice", email := "a@e", first_name := "",
                last_name := "", last_download := none, download_count := 0 }
      posts := [], categories := [], logs := [], nextRequestId := 0 }
    { date_from := none, date_to := none, format := some "json",
      include_private := none, category := none }
    "ip" "ua" 0 7 ⟨2024, 1, 2, 3, 4, 5⟩ [] rfl rfl hbuild (by decide)
  exact ⟨h.2.1, h.2.2.1, h.2.2.2 _ (some "json") "ip" "ua" 0 7 ⟨2024, 1, 2, 3, 4, 5⟩⟩

/-! ## Claim C2 -/

lemma create_then_terminal (s : AppState) (st' : AppState) (dl : DownloadLog)
    (op : LedgerOp)
    (hids : ∀ l ∈ s.logs, l.request_id < s.nextRequestId)
    (hdone : ∀ l ∈ s.logs, l.completed_at ≠ none)
    (hdlpend : dl.completed_at = none)
    (hdlid : dl.request_id = s.nextRequestId)
    (hterm : op.isTerminal = true)
    (htar : op.target = some dl.request_id)
    (hlogs : st'.logs = applyOps s.logs [LedgerOp.create dl, op])
    (hnext : st'.nextRequestId = s.nextRequestId + 1) :
    SingleTransitionTrace s.logs [LedgerOp.create dl, op] ∧ LedgerInv st' := by
  have hfresh : ∀ l' ∈ s.logs, l'.request_id ≠ dl.request_id := by
    intro l' hl'
    rw [hdlid]
    exact Nat.ne_of_lt (hids l' hl')
  refine ⟨⟨hdlpend, hterm, htar, hfresh⟩, ?_⟩
  have hnew : ∃ nl : DownloadLog, st'.logs = s.logs ++ [nl] ∧
      nl.completed_at ≠ none ∧ nl.request_id = dl.request_id := by
    cases op with
    | create l2 => simp [LedgerOp.isTerminal] at hterm
    | complete rid tr fs pt n =>
        have hrid : rid = dl.request_id := by
          simpa [LedgerOp.target] using htar
        subst hrid
        exact ⟨dl.mark_completed tr fs pt n,
          by rw [hlogs, applyOps_create_complete s.logs dl tr fs pt n hfresh],
          by simp [DownloadLog.mark_completed], rfl⟩
    | fail rid msg n =>
        have hrid : rid = dl.request_id := by
          simpa [LedgerOp.target] using htar
        subst hrid
        exact ⟨dl.mark_failed msg n,
          by rw [hlogs, applyOps_create_fail s.logs dl msg n hfresh],
          by simp [DownloadLog.mark_failed], rfl⟩
  obtain ⟨nl, hnl, hnlc, hnlid⟩ := hnew
  constructor
  · intro x hx
    rw [hnl] at hx
    rcases List.mem_append.mp hx with hx | hx
    · exact hdone x hx
    · rw [List.mem_singleton.mp hx]
      exact hnlc
  · intro x hx
    rw [hnl] at hx
    rw [hnext]
    rcases List.mem_append.mp hx with hx | hx
    · exact Nat.lt_succ_of_lt (hids x hx)
    · rw [List.mem_singleton.mp hx, hnlid, hdlid]
      exact Nat.lt_succ_self _

lemma runCall_ledger (s : AppState) (c : OrchestratorCall) (h : LedgerInv s) :
    SingleTransitionTrace s.logs (runCall s c).trace ∧ LedgerInv (runCall s c).state := by
  obtain ⟨hdone, hids⟩ := h
  cases c with
  | historical req ip ua t0 now nowDT =>
      cases hv : HistoricalDownloadSerializer.is_valid req with
      | false =>
          have hpost : runCall s (.historical req ip ua t0 now nowDT) =
              { response := .validationError (HistoricalDownloadSerializer.errors req)
                state := s, trace := [] } := by
            simp [runCall, HistoricalPostsDownloadView.post, hv]
          rw [hpost]
          exact ⟨trivial, hdone, hids⟩
      | true =>
          cases hr : s.user.can_download now with
          | false =>
              have hpost : runCall s (.historical req ip ua t0 now nowDT) =
                  { response := .rateLimited
                      "Download rate limit exceeded. Please wait before requesting another download." 3600
                    state := s, trace := [] } := by
                simp [runCall, HistoricalPostsDownloadView.post, hv, hr]
              rw [hpost]
              exact ⟨trivial, hdone, hids⟩
          | true =>
              cases hb : HistoricalPostsDownloadView.build_queryset s.user
                  (HistoricalDownloadSerializer.validated req) s.posts s.categories with
              | error e =>
                  have hpost : runCall s (.historical req ip ua t0 now nowDT) =
                      { response := .serverError "Download failed. Please try again later."
                          s.nextRequestId
                        state := { s with
                          logs := applyOps s.logs
                            [LedgerOp.create (DownloadLog.create s.user.id "historical_posts"
                                (HistoricalDownloadSerializer.validated req).format ip ua
                                (HistoricalDownloadSerializer.snapshot req) s.nextRequestId now),
                             LedgerOp.fail s.nextRequestId e now]
                          nextRequestId := s.nextRequestId + 1 }
                        trace := [LedgerOp.create (DownloadLog.create s.user.id "historical_posts"
                            (HistoricalDownloadSerializer.validated req).format ip ua
                            (HistoricalDownloadSerializer.snapshot req) s.nextRequestId now),
                          LedgerOp.fail s.nextRequestId e now] } := by
                    simp [runCall, HistoricalPostsDownloadView.post, hv, hr, hb,
                      DownloadLog.create]
                  rw [hpost]
                  exact create_then_terminal s _ _ _ hids hdone rfl rfl rfl rfl rfl rfl
              | ok qs =>
                  by_cases hg : qs.length > max_records
                  · have hpost : runCall s (.historical req ip ua t0 now nowDT) =
                        { response := .tooLarge
                            ("Too many records requested. Maximum allowed: " ++ toString max_records)
                            qs.length
                          state := { s with
                            logs := applyOps s.logs
                              [LedgerOp.create (DownloadLog.create s.user.id "historical_posts"
                                  (HistoricalDownloadSerializer.validated req).format ip ua
                                  (HistoricalDownloadSerializer.snapshot req) s.nextRequestId now),
                               LedgerOp.fail s.nextRequestId
                                 ("Too many records requested. Maximum allowed: " ++ toString max_records) now]
                            nextRequestId := s.nextRequestId + 1 }
                          trace := [LedgerOp.create (DownloadLog.create s.user.id "historical_posts"
                              (HistoricalDownloadSerializer.validated req).format ip ua
                              (HistoricalDownloadSerializer.snapshot req) s.nextRequestId now),
                            LedgerOp.fail s.nextRequestId
                              ("Too many records requested. Maximum allowed: " ++ toString max_records) now] } := by
                      simp [runCall, HistoricalPostsDownloadView.post, hv, hr, hb, hg,
                        DownloadLog.create]
                    rw [hpost]
                    exact create_then_terminal s _ _ _ hids hdone rfl rfl rfl rfl rfl rfl
                  · have hpost : runCall s (.historical req ip ua t0 now nowDT) =
                        { response := .fileResponse (create_download_response
                            (HistoricalPostsDownloadView.export_data qs
                              (HistoricalDownloadSerializer.validated req).format nowDT.isoformat).1
                            ("historical_posts_" ++ nowDT.strftimeCompact ++ "." ++
                              (HistoricalPostsDownloadView.export_data qs
                                (HistoricalDownloadSerializer.validated req).format nowDT.isoformat).2.2)
                            (HistoricalPostsDownloadView.export_data qs
                              (HistoricalDownloadSerializer.validated req).format nowDT.isoformat).2.1)
                          state := { s with
                            user := s.user.increment_download_count now
                            logs := applyOps s.logs
                              [LedgerOp.create (DownloadLog.create s.user.id "historical_posts"
                                  (HistoricalDownloadSerializer.validated req).format ip ua
                                  (HistoricalDownloadSerializer.snapshot req) s.nextRequestId now),
                               LedgerOp.complete s.nextRequestId qs.length
                                 ((HistoricalPostsDownloadView.export_data qs
                                   (HistoricalDownloadSerializer.validated req).format nowDT.isoformat).1.utf8ByteSize)
                                 (now - t0) now]
                            nextRequestId := s.nextRequestId + 1 }
                          trace := [LedgerOp.create (DownloadLog.create s.user.id "historical_posts"
                              (HistoricalDownloadSerializer.validated req).format ip ua
                              (HistoricalDownloadSerializer.snapshot req) s.nextRequestId now),
                            LedgerOp.complete s.nextRequestId qs.length
                              ((HistoricalPostsDownloadView.export_data qs
                                (HistoricalDownloadSerializer.validated req).format nowDT.isoformat).1.utf8ByteSize)
                              (now - t0) now] } := by
                      simp [runCall, HistoricalPostsDownloadView.post, hv, hr, hb, hg,
                        DownloadLog.create]
                    rw [hpost]
                    exact create_then_terminal s _ _ _ hids hdone rfl rfl rfl rfl rfl rfl
  | userPosts format? ip ua t0 now nowDT =>
      cases hf : ["json", "csv", "xml"].contains (format?.getD "json") with
      | false =>
          have hpost : runCall s (.userPosts format? ip ua t0 now nowDT) =
              { response := .validationError ["Invalid format. Supported formats: json, csv, xml"]
                state := s, trace := [] } := by
            simp [runCall, UserPostsDownloadView.post, hf]
            simpa using hf
          rw [hpost]
          exact ⟨trivial, hdone, hids⟩
      | true =>
          have hpost : runCall s (.userPosts format? ip ua t0 now nowDT) =
              { response := .fileResponse (create_download_response
                  (UserPostsDownloadView.export_data
                    ((s.posts.filter fun (p : BlogPost) => p.author.id == s.user.id).mergeSort createdDescLe)
                    (format?.getD "json") nowDT.isoformat).1
                  ("my_posts_" ++ nowDT.strftimeCompact ++ "." ++
                    (UserPostsDownloadView.export_data
                      ((s.posts.filter fun (p : BlogPost) => p.author.id == s.user.id).mergeSort createdDescLe)
                      (format?.getD "json") nowDT.isoformat).2.2)
                  (UserPostsDownloadView.export_data
                    ((s.posts.filter fun (p : BlogPost) => p.author.id == s.user.id).mergeSort createdDescLe)
                    (format?.getD "json") nowDT.isoformat).2.1)
                state := { s with
                  logs := applyOps s.logs
                    [LedgerOp.create (DownloadLog.create s.user.id "user_posts"
                        (format?.getD "json") ip ua [("format", format?.getD "json")]
                        s.nextRequestId now),
                     LedgerOp.complete s.nextRequestId
                       ((s.posts.filter fun (p : BlogPost) => p.author.id == s.user.id).mergeSort createdDescLe).length
                       ((UserPostsDownloadView.export_data
                         ((s.posts.filter fun (p : BlogPost) => p.author.id == s.user.id).mergeSort createdDescLe)
                         (format?.getD "json") nowDT.isoformat).1.utf8ByteSize)
                       (now - t0) now]
                  nextRequestId := s.nextRequestId + 1 }
                trace := [LedgerOp.create (DownloadLog.create s.user.id "user_posts"
                    (format?.getD "json") ip ua [("format", format?.getD "json")]
                    s.nextRequestId now),
                  LedgerOp.complete s.nextRequestId
                    ((s.posts.filter fun (p : BlogPost) => p.author.id == s.user.id).mergeSort createdDescLe).length
                    ((UserPostsDownloadView.export_data
                      ((s.posts.filter fun (p : BlogPost) => p.author.id == s.user.id).mergeSort createdDescLe)
                      (format?.getD "json") nowDT.isoformat).1.utf8ByteSize)
                    (now - t0) now] } := by
            simp [runCall, UserPostsDownloadView.post, hf, DownloadLog.create]
            intro h1 h2
            rcases (by simpa using hf :
                format?.getD "json" = "json" ∨ format?.getD "json" = "csv" ∨
                format?.getD "json" = "xml") with hx | hx | hx
            · exact absurd hx h1
            · exact absurd hx h2
            · exact hx
          rw [hpost]
          exact create_then_terminal s _ _ _ hids hdone rfl rfl rfl rfl rfl rfl

lemma runCalls_inv (st : AppState) (calls : List OrchestratorCall)
    (hinv : LedgerInv st) : LedgerInv (runCalls st calls) := by
  induction calls generalizing st with
  | nil => exact hinv
  | cons a t ih => exact ih (runCall st a).state (runCall_ledger st a hinv).2

/-- C2: starting from any database state satisfying the ledger invariant
(every stored entry finalized, identifiers older than the fresh counter) and
across every sequence of orchestrator operations, every ledger entry reaches
exactly one terminal state: after any sequence the invariant still holds and
every stored entry has a non-null `completed_at`; and the next operation's
ledger trace either touches the ledger not at all or creates exactly one entry
that is pending (`completed_at` null) at creation, applies exactly one
terminal update (`mark_completed` or `mark_failed`) to that same entry, and
never targets a pre-existing (already finalized) entry — so an entry is never
finalized twice, never reverted, and never updated after its terminal
transition. -/
theorem C2_ledger_single_terminal_transition
    (st : AppState) (hinv : LedgerInv st) (calls : List OrchestratorCall)
    (c : OrchestratorCall) :
    LedgerInv (runCalls st calls) ∧
    (∀ l ∈ (runCalls st calls).logs, l.completed_at ≠ none) ∧
    SingleTransitionTrace (runCalls st calls).logs
      (runCall (runCalls st calls) c).trace ∧
    LedgerInv (runCall (runCalls st calls) c).state := by
  have hrc : LedgerInv (runCalls st calls) := runCalls_inv st calls hinv
  exact ⟨hrc, hrc.1, (runCall_ledger _ c hrc).1, (runCall_ledger _ c hrc).2⟩

/-- Witness for C2: from an empty ledger, after one self-only export call, a
following historical export call still obeys the single-transition discipline
and preserves the invariant. -/
theorem C2_ledger_single_terminal_transition_witness :
    LedgerInv (runCalls
      { user := { id := 1, username := "u", email := "u@e", first_name := "",
                  last_name := "", last_download := none, download_count := 0 }
        posts := [], categories := [], logs := [], nextRequestId := 0 }
      [OrchestratorCall.userPosts (some "json") "ip" "ua" 0 1 ⟨2024, 1, 1, 0, 0, 0⟩]) ∧
    (∀ l ∈ (runCalls
      { user := { id := 1, username := "u", email := "u@e", first_name := "",
                  last_name := "", last_download := none, download_count := 0 }
        posts := [], categories := [], logs := [], nextRequestId := 0 }
      [OrchestratorCall.userPosts (some "json") "ip" "ua" 0 1 ⟨2024, 1, 1, 0, 0, 0⟩]).logs,
      l.completed_at ≠ none) ∧
    SingleTransitionTrace (runCalls
      { user := { id := 1, username := "u", email := "u@e", first_name := "",
                  last_name := "", last_download := none, download_count := 0 }
        posts := [], categories := [], logs := [], nextRequestId := 0 }
      [OrchestratorCall.userPosts (some "json") "ip" "ua" 0 1 ⟨2024, 1, 1, 0, 0, 0⟩]).logs
      (runCall (runCalls
        { user := { id := 1, username := "u", email := "u@e", first_name := "",
                    last_name := "", last_download := none, download_count := 0 }
          posts := [], categories := [], logs := [], nextRequestId := 0 }
        [OrchestratorCall.userPosts (some "json") "ip" "ua" 0 1 ⟨2024, 1, 1, 0, 0, 0⟩])
        (OrchestratorCall.historical
          { date_from := none, date_to := none, format := some "json",
            include_private := none, category := none } "ip" "ua" 2 3
          ⟨2024, 1, 1, 0, 0, 5⟩)).trace ∧
    LedgerInv (runCall (runCalls
      { user := { id := 1, username := "u", email := "u@e", first_name := "",
                  last_name := "", last_download := none, download_count := 0 }
        posts := [], categories := [], logs := [], nextRequestId := 0 }
      [OrchestratorCall.userPosts (some "json") "ip" "ua" 0 1 ⟨2024, 1, 1, 0, 0, 0⟩])
      (OrchestratorCall.historical
        { date_from := none, date_to := none, format := some "json",
          include_private := none, category := none } "ip" "ua" 2 3
        ⟨2024, 1, 1, 0, 0, 5⟩)).state :=
  C2_ledger_single_terminal_transition
    { user := { id := 1, username := "u", email := "u@e", first_name := "",
                last_name := "", last_download := none, download_count := 0 }
      posts := [], categories := [], logs := [], nextRequestId := 0 }
    ⟨fun l hl => absurd hl (List.not_mem_nil l), fun l hl => absurd hl (List.not_mem_nil l)⟩
    [OrchestratorCall.userPosts (some "json") "ip" "ua" 0 1 ⟨2024, 1, 1, 0, 0, 0⟩]
    (OrchestratorCall.historical
      { date_from := none, date_to := none, format := some "json",
        include_private := none, category := none } "ip" "ua" 2 3
      ⟨2024, 1, 1, 0, 0, 5⟩)
